import Mathlib

/-!
# k8s-image-cloner: reconciliation engine

A shallow embedding of the Go sources

* `internal/controller/finalizers/finalizers.go`
* `internal/controller/predicates/predicates.go`
* `internal/cloner/image.go`
* `internal/config/config.go`
* `internal/controller/deployment.go`
* `internal/controller/daemonset.go`
* `cmd/cloner/main.go` (how the cloner and the reconcilers are set up)

Conventions of the embedding.

* Go strings are modelled by Lean strings and are compared, searched and
  rewritten through their character lists (`String.data`).
* A Go slice is modelled by a `List`; a `nil` slice and an empty slice are
  both `[]`.
* A Go `error` is a value of `Err`; `Option Err` stands for a returned
  `error` (`none` is `nil`).
* The cluster and the registries are outside the program.  They are
  modelled by a state of an arbitrary type `σ` that every external call
  (`Get`, `Update`, `Clone`) reads and replaces, so that successive calls
  may answer differently.  Every external call is also written to a trace
  of `Call`s, in program order.
* A run-time panic (index out of range, failed type assertion) is `none`
  of an `Option` result.
* Go `reflect.DeepEqual` is outside the program and compares the Go values
  in full: every field, and a `nil` slice as different from an empty one.
  The model keeps a part of those values, so `DeepEqual` is a parameter of
  the two predicates that call it.  What is known of it is that two specs
  it reports equal are equal in the model; two specs equal in the model
  may still differ for it.
* Logging has no effect on any value and is left out.
-/

namespace K8sImageCloner

/-! ## Go standard library: `strings` -/

/-- Go `strings.HasPrefix(s, prefix)`. -/
def HasPrefix (s pre : String) : Bool :=
  pre.data.isPrefixOf s.data

/-- Scan of `strings.ReplaceAll` for a non-empty `old`: `skip` counts the
characters of a matched occurrence that are still to be dropped. -/
def replaceScan (old new : List Char) : Nat → List Char → List Char
  | _, [] => []
  | skip + 1, _ :: cs => replaceScan old new skip cs
  | 0, c :: cs =>
    if old.isPrefixOf (c :: cs) then
      new ++ replaceScan old new (old.length - 1) cs
    else
      c :: replaceScan old new 0 cs

/-- Go `strings.ReplaceAll(s, old, new)`: every non-overlapping occurrence
of `old`, found from the left, is replaced by `new`; an empty `old` matches
before every character and at the end. -/
def ReplaceAll (s old new : String) : String :=
  if old.data = [] then
    ⟨new.data ++ s.data.flatMap (fun c => c :: new.data)⟩
  else
    ⟨replaceScan old.data new.data 0 s.data⟩

/-! ## Errors -/

/-- A Go `error`: its message and whether `errors.IsConflict` holds of it. -/
structure Err where
  msg : String
  conflict : Bool
deriving DecidableEq

/-! ## Kubernetes objects -/

/-- The type `corev1.Container`: the image reference and the other fields. -/
structure Container where
  Name : String
  Image : String
  Args : List String
deriving DecidableEq

/-- The type `corev1.PodSpec`. -/
structure PodSpec where
  Containers : List Container
  ServiceAccountName : String
deriving DecidableEq

/-- The type `corev1.PodTemplateSpec`. -/
structure PodTemplateSpec where
  Labels : List (String × String)
  Spec : PodSpec
deriving DecidableEq

/-- The types `appsv1.DeploymentSpec` and `appsv1.DaemonSetSpec`: the pod
template and the fields around it (`Replicas` is `nil` in a DaemonSet). -/
structure WorkloadSpec where
  Replicas : Option Int
  Selector : List (String × String)
  Template : PodTemplateSpec
  MinReadySeconds : Int
deriving DecidableEq

/-- The type `metav1.ObjectMeta`. -/
structure ObjectMeta where
  Name : String
  Namespace : String
  ResourceVersion : String
  Annotations : List (String × String)
  Finalizers : List String
deriving DecidableEq

/-- The types `appsv1.Deployment` and `appsv1.DaemonSet`, which have the
same shape in every field the program reads or writes. -/
structure Workload where
  ObjectMeta : ObjectMeta
  Spec : WorkloadSpec
deriving DecidableEq

/-- The zero value `&appsv1.Deployment{}` / `&appsv1.DaemonSet{}`. -/
def Workload.zero : Workload :=
  { ObjectMeta :=
      { Name := "", Namespace := "", ResourceVersion := "", Annotations := [], Finalizers := [] },
    Spec :=
      { Replicas := none, Selector := [],
        Template := { Labels := [], Spec := { Containers := [], ServiceAccountName := "" } },
        MinReadySeconds := 0 } }

/-- A value of the interface `client.Object`, by dynamic type. -/
inductive Object where
  | deployment (d : Workload)
  | daemonSet (d : Workload)
  | other (ns : String)
deriving DecidableEq

/-- The type `types.NamespacedName`. -/
structure NamespacedName where
  Namespace : String
  Name : String
deriving DecidableEq

/-- The type `ctrl.Result`. -/
structure Result where
  Requeue : Bool
  RequeueAfter : Nat
deriving DecidableEq

/-- The value `ctrl.Result{}`. -/
def Result.empty : Result := { Requeue := false, RequeueAfter := 0 }

/-! ## `internal/controller/finalizers` -/

/-- The function `RemoveFinalizer` of finalizers.go. -/
def RemoveFinalizer (slice : List String) (s : String) : List String :=
  slice.foldl (fun result item => if item != s then result ++ [item] else result) []

/-! ## `internal/controller/predicates` -/

/-- The type `event.UpdateEvent`. -/
structure UpdateEvent where
  ObjectOld : Object
  ObjectNew : Object
deriving DecidableEq

/-- The type `predicate.Funcs` of controller-runtime: a function that is
not set is `nil`.  A set function answers `none` when it panics. -/
structure Funcs where
  CreateFunc : Option (Object → Option Bool)
  DeleteFunc : Option (Object → Option Bool)
  UpdateFunc : Option (UpdateEvent → Option Bool)
  GenericFunc : Option (Object → Option Bool)

/-- The method `Funcs.Create`: the function when it is set, else `true`. -/
def Funcs.Create (p : Funcs) (e : Object) : Option Bool :=
  match p.CreateFunc with
  | some f => f e
  | none => some true

/-- The method `Funcs.Delete`: the function when it is set, else `true`. -/
def Funcs.Delete (p : Funcs) (e : Object) : Option Bool :=
  match p.DeleteFunc with
  | some f => f e
  | none => some true

/-- The method `Funcs.Update`: the function when it is set, else `true`. -/
def Funcs.Update (p : Funcs) (e : UpdateEvent) : Option Bool :=
  match p.UpdateFunc with
  | some f => f e
  | none => some true

/-- The method `Funcs.Generic`: the function when it is set, else `true`. -/
def Funcs.Generic (p : Funcs) (e : Object) : Option Bool :=
  match p.GenericFunc with
  | some f => f e
  | none => some true

/-- The method `GetNamespace` of `client.Object`. -/
def Object.GetNamespace : Object → String
  | .deployment d => d.ObjectMeta.Namespace
  | .daemonSet d => d.ObjectMeta.Namespace
  | .other ns => ns

/-- The function `IgnoreKubeSystem` of predicates.go. -/
def IgnoreKubeSystem (object : Object) : Bool :=
  object.GetNamespace != "kube-system"

/-- The function `IgnoreDeploymentClonedImages` of predicates.go.  The
result is `none` when `Containers[0]` is out of range. -/
def IgnoreDeploymentClonedImages (imgPrefix : String) (object : Object) : Option Bool :=
  match object with
  | .deployment deployment =>
    match deployment.Spec.Template.Spec.Containers[0]? with
    | none => none
    | some c => some (!HasPrefix c.Image imgPrefix)
  | _ => some false

/-- The function `IgnoreDaemonsetClonedImages` of predicates.go.  The
result is `none` when `Containers[0]` is out of range. -/
def IgnoreDaemonsetClonedImages (imgPrefix : String) (object : Object) : Option Bool :=
  match object with
  | .daemonSet deployment =>
    match deployment.Spec.Template.Spec.Containers[0]? with
    | none => none
    | some c => some (!HasPrefix c.Image imgPrefix)
  | _ => some false

/-- The function `IgnoreUnchangedDeploymentSpec` of predicates.go: only
`UpdateFunc` is set; its type assertions panic on another kind.  The
argument `DeepEqual` is Go `reflect.DeepEqual` on the two specs. -/
def IgnoreUnchangedDeploymentSpec (DeepEqual : WorkloadSpec → WorkloadSpec → Bool) : Funcs :=
  { CreateFunc := none,
    DeleteFunc := none,
    UpdateFunc := some (fun e =>
      match e.ObjectOld, e.ObjectNew with
      | .deployment old, .deployment new => some (!DeepEqual old.Spec new.Spec)
      | _, _ => none),
    GenericFunc := none }

/-- The function `IgnoreUnchangedDaemonsetSpec` of predicates.go: only
`UpdateFunc` is set; its type assertions panic on another kind.  The
argument `DeepEqual` is Go `reflect.DeepEqual` on the two specs. -/
def IgnoreUnchangedDaemonsetSpec (DeepEqual : WorkloadSpec → WorkloadSpec → Bool) : Funcs :=
  { CreateFunc := none,
    DeleteFunc := none,
    UpdateFunc := some (fun e =>
      match e.ObjectOld, e.ObjectNew with
      | .daemonSet old, .daemonSet new => some (!DeepEqual old.Spec new.Spec)
      | _, _ => none),
    GenericFunc := none }

/-! ## `internal/cloner` -/

/-- The type `authn.AuthConfig`, in the two fields the program sets. -/
structure AuthConfig where
  Username : String
  Password : String
deriving DecidableEq

/-- The struct `cloner.ImageCloner`, with the registry copy `crane.Copy`
(under the given credentials) as the field `copy`. -/
structure ImageCloner (σ : Type) where
  copy : AuthConfig → σ → String → String → Option Err × σ
  cfg : AuthConfig

/-- The method `ImageCloner.SetupForDocker` of image.go (it returns `nil`). -/
def ImageCloner.SetupForDocker {σ : Type} (ic : ImageCloner σ) (username password : String) :
    ImageCloner σ :=
  { ic with cfg := { Username := username, Password := password } }

/-- The method `ImageCloner.IsCloned` of image.go. -/
def ImageCloner.IsCloned {σ : Type} (ic : ImageCloner σ) (image : String) : Bool :=
  HasPrefix image ic.cfg.Username

/-- The method `ImageCloner.Clone` of image.go. -/
def ImageCloner.Clone {σ : Type} (ic : ImageCloner σ) (s : σ) (originalImage clonedImage : String) :
    Option Err × σ :=
  match ic.copy ic.cfg s originalImage clonedImage with
  | (some err, s1) => (some err, s1)
  | (none, s1) => (none, s1)

/-! ## `internal/config` -/

/-- The type `corev1.Secret`: the map `Data` as a list of key and value. -/
structure Secret where
  Data : List (String × String)
deriving DecidableEq

/-- Go `string(secret.Data[key])`: the empty string for an absent key. -/
def Secret.field (secret : Secret) (key : String) : String :=
  (secret.Data.lookup key).getD ""

/-- The struct `DockerConfig` of config.go. -/
structure DockerConfig where
  Username : String
  Password : String
deriving DecidableEq

/-- The struct `ControllerParams` of config.go. -/
structure ControllerParams where
  Namespace : String
  DockerSecretName : String
deriving DecidableEq

/-- The struct `Config` of config.go; `apiReader` is the `Get` of a secret. -/
structure Config (σ : Type) where
  apiReader : σ → NamespacedName → Except Err Secret × σ
  DockerConfig : DockerConfig
  ControllerParams : ControllerParams

/-- The method `Config.RetrieveDockerSecrets` of config.go: the returned
error, the configuration after the call and the state after the call. -/
def Config.RetrieveDockerSecrets {σ : Type} (c : Config σ) (s : σ) (nameSpace secretName : String) :
    Option Err × Config σ × σ :=
  let secretNamespaceName : NamespacedName := { Namespace := nameSpace, Name := secretName }
  match c.apiReader s secretNamespaceName with
  | (.error err, s1) =>
    (some { msg := "failed to fetch docker secret: " ++ err.msg, conflict := false }, c, s1)
  | (.ok secret, s1) =>
    (none,
     { c with DockerConfig :=
        { Username := secret.field "username", Password := secret.field "password" } },
     s1)

/-! ## `internal/controller` -/

deriving instance DecidableEq for Except

/-- An external call made by a reconciler, with what it returned. -/
inductive Call where
  | get (key : NamespacedName) (res : Except Err Workload)
  | clone (originalImage clonedImage : String) (res : Option Err)
  | update (obj : Workload) (res : Option Err)
deriving DecidableEq

/-- The cluster client `client.Client`, in the two methods the reconcilers
call.  `Get` answers the object read or an error. -/
structure Client (σ : Type) where
  Get : σ → NamespacedName → Except Err Workload × σ
  Update : σ → Workload → Option Err × σ

namespace controller

/-- The interface `ImageCloner` of deployment.go. -/
structure ImageCloner (σ : Type) where
  Clone : σ → String → String → Option Err × σ
  IsCloned : String → Bool

end controller

/-- The struct `cloner.ImageCloner` as a value of the interface
`controller.ImageCloner`, as main.go passes it to both reconcilers. -/
def ImageCloner.toInterface {σ : Type} (ic : ImageCloner σ) : controller.ImageCloner σ :=
  { Clone := ic.Clone, IsCloned := ic.IsCloned }

/-- The constant `delProtectionFinalizerName` of deployment.go. -/
def delProtectionFinalizerName : String := "image-cloner/del-protection"

/-- The assignment `Containers[i].Image = img` on a container list. -/
def setImage : List Container → Nat → String → List Container
  | [], _, _ => []
  | c :: cs, 0, img => { c with Image := img } :: cs
  | c :: cs, i + 1, img => c :: setImage cs i img

/-- The mutation after a successful `Clone` (deployment.go lines 84-87,
daemonset.go lines 77-80): the image of container `i` is set and the
deletion-protection marker is removed from the finalizers. -/
def applyClone (obj : Workload) (i : Nat) (clonedImg : String) : Workload :=
  let obj1 : Workload :=
    { obj with Spec.Template.Spec.Containers :=
        setImage obj.Spec.Template.Spec.Containers i clonedImg }
  let finalizers := RemoveFinalizer obj1.ObjectMeta.Finalizers delProtectionFinalizerName
  { obj1 with ObjectMeta.Finalizers := finalizers }

/-- The result of a `Reconcile`: the returned pair, the state of the
outside world after the run and the external calls made, in order. -/
structure Outcome (σ : Type) where
  result : Result
  err : Option Err
  state : σ
  trace : List Call

/-- The loop over the containers (deployment.go lines 69-88, daemonset.go
lines 62-81, the same text).  The first argument is what is left of the
ranged-over container list and `i` the index of its head; `obj` is the
object being mutated.  The loop answers the error it returned with, if
any, the object, the state and the calls made. -/
def reconcileLoop {σ : Type} (cloner : controller.ImageCloner σ) (clonedPrefix : String) :
    List Container → Nat → Workload → σ → Option Err × Workload × σ × List Call
  | [], _, obj, s => (none, obj, s, [])
  | container :: rest, i, obj, s =>
    if cloner.IsCloned container.Image then
      reconcileLoop cloner clonedPrefix rest (i + 1) obj s
    else
      let clonedImg := clonedPrefix ++ "/" ++ ReplaceAll container.Image "/" "-"
      match cloner.Clone s container.Image clonedImg with
      | (some err, s1) => (some err, obj, s1, [Call.clone container.Image clonedImg (some err)])
      | (none, s1) =>
        match reconcileLoop cloner clonedPrefix rest (i + 1) (applyClone obj i clonedImg) s1 with
        | (e, o, s2, t) => (e, o, s2, Call.clone container.Image clonedImg none :: t)

/-- The two assignments to `latest` in the retry closure (deployment.go
lines 97-98, daemonset.go lines 90-91): the container list and the
finalizer list of `obj` replace those of `latest`. -/
def splice (latest obj : Workload) : Workload :=
  let latest1 : Workload :=
    { latest with Spec.Template.Spec.Containers := obj.Spec.Template.Spec.Containers }
  { latest1 with ObjectMeta.Finalizers := obj.ObjectMeta.Finalizers }

/-- The closure passed to `retry.RetryOnConflict` (deployment.go lines
91-99, daemonset.go lines 84-92): re-fetch, splice in the container list
and the finalizer list of `obj`, update. -/
def updateLatest {σ : Type} (c : Client σ) (req : NamespacedName) (obj : Workload) (s : σ) :
    Option Err × σ × List Call :=
  match c.Get s req with
  | (.error err, s1) => (some err, s1, [Call.get req (.error err)])
  | (.ok latest, s1) =>
    match c.Update s1 (splice latest obj) with
    | (res, s2) => (res, s2, [Call.get req (.ok latest), Call.update (splice latest obj) res])

/-- The number of attempts of `retry.DefaultRetry` (`Steps: 5`). -/
def DefaultRetrySteps : Nat := 5

/-- The function `retry.RetryOnConflict` of client-go, by the number of
attempts left: `fn` is run again while it returns a conflict error and
attempts are left; when none is left the last conflict error is returned;
any other error is returned at once. -/
def RetryOnConflict {σ : Type} (fn : σ → Option Err × σ × List Call) :
    Nat → Option Err → σ → Option Err × σ × List Call
  | 0, lastErr, s => (lastErr, s, [])
  | steps + 1, _, s =>
    match fn s with
    | (none, s1, t) => (none, s1, t)
    | (some err, s1, t) =>
      if err.conflict then
        match RetryOnConflict fn steps (some err) s1 with
        | (e, s2, t2) => (e, s2, t ++ t2)
      else
        (some err, s1, t)

/-- The struct `DeploymentReconciler` of deployment.go. -/
structure DeploymentReconciler (σ : Type) where
  Client : Client σ
  cloner : controller.ImageCloner σ
  clonedPrefix : String

/-- The struct `DaemonsetReconciler` of daemonset.go. -/
structure DaemonsetReconciler (σ : Type) where
  Client : Client σ
  cloner : controller.ImageCloner σ
  clonedPrefix : String

/-- The method `DeploymentReconciler.Reconcile` of deployment.go.  A
failed entry `Get` is only logged: the run goes on with the object the
`Get` was given, the zero value. -/
def DeploymentReconciler.Reconcile {σ : Type} (r : DeploymentReconciler σ) (s : σ)
    (req : NamespacedName) : Outcome σ :=
  match r.Client.Get s req with
  | (got, s1) =>
    let deployment : Workload :=
      match got with
      | .ok d => d
      | .error _ => Workload.zero
    match reconcileLoop r.cloner r.clonedPrefix deployment.Spec.Template.Spec.Containers 0
        deployment s1 with
    | (some err, _, s2, t) =>
      { result := Result.empty, err := some err, state := s2, trace := Call.get req got :: t }
    | (none, deployment1, s2, t) =>
      match RetryOnConflict (updateLatest r.Client req deployment1) DefaultRetrySteps none s2 with
      | (some err, s3, t3) =>
        { result := Result.empty, err := some err, state := s3,
          trace := Call.get req got :: (t ++ t3) }
      | (none, s3, t3) =>
        { result := Result.empty, err := none, state := s3,
          trace := Call.get req got :: (t ++ t3) }

/-- The method `DaemonsetReconciler.Reconcile` of daemonset.go. -/
def DaemonsetReconciler.Reconcile {σ : Type} (r : DaemonsetReconciler σ) (s : σ)
    (req : NamespacedName) : Outcome σ :=
  match r.Client.Get s req with
  | (.error err, s1) =>
    { result := Result.empty, err := none, state := s1, trace := [Call.get req (.error err)] }
  | (.ok daemonset, s1) =>
    match reconcileLoop r.cloner r.clonedPrefix daemonset.Spec.Template.Spec.Containers 0
        daemonset s1 with
    | (some err, _, s2, t) =>
      { result := Result.empty, err := some err, state := s2,
        trace := Call.get req (.ok daemonset) :: t }
    | (none, daemonset1, s2, t) =>
      match RetryOnConflict (updateLatest r.Client req daemonset1) DefaultRetrySteps none s2 with
      | (some err, s3, t3) =>
        { result := Result.empty, err := some err, state := s3,
          trace := Call.get req (.ok daemonset) :: (t ++ t3) }
      | (none, s3, t3) =>
        { result := Result.empty, err := none, state := s3,
          trace := Call.get req (.ok daemonset) :: (t ++ t3) }

/-- The object passed to the last `Update` of a trace, if there is one. -/
def finalUpdate : List Call → Option Workload
  | [] => none
  | Call.update obj _ :: rest =>
    match finalUpdate rest with
    | some o => some o
    | none => some obj
  | _ :: rest => finalUpdate rest

/-- The `Clone` calls of a trace, in order, as source and destination. -/
def cloneCalls : List Call → List (String × String)
  | [] => []
  | Call.clone src dst _ :: rest => (src, dst) :: cloneCalls rest
  | _ :: rest => cloneCalls rest

/-- The objects passed to the `Update` calls of a trace, in order. -/
def updateCalls : List Call → List Workload
  | [] => []
  | Call.update obj _ :: rest => obj :: updateCalls rest
  | _ :: rest => updateCalls rest

/-- Every `Update` of a trace, paired with the object that the call just
before it fetched: `none` when that call is not a successful `Get`.  The
first argument is what the call before the trace fetched. -/
def writesAfterFetch : Option Workload → List Call → List (Option Workload × Workload)
  | _, [] => []
  | _, Call.get _ (.ok w) :: rest => writesAfterFetch (some w) rest
  | _, Call.get _ (.error _) :: rest => writesAfterFetch none rest
  | _, Call.clone _ _ _ :: rest => writesAfterFetch none rest
  | prev, Call.update obj _ :: rest => (prev, obj) :: writesAfterFetch none rest

/-! ## Example worlds

The state of these worlds is the number of `Get` calls made so far. -/

/-- A workload with the given container images and finalizers. -/
def exampleWorkload (images finalizers : List String) : Workload :=
  { Workload.zero with
    ObjectMeta.Name := "web"
    ObjectMeta.Namespace := "default"
    ObjectMeta.Finalizers := finalizers
    Spec.Template.Spec.Containers :=
      images.map (fun image => { Name := "main", Image := image, Args := [] }) }

/-- The request for the object `default/web`. -/
def exampleRequest : NamespacedName := { Namespace := "default", Name := "web" }

/-- A cluster whose `Get` number `n` answers entry `n` of `script`, and
`last` once the script is used up; every `Update` is accepted. -/
def scriptedClient (script : List (Except Err Workload)) (last : Except Err Workload) :
    Client Nat :=
  { Get := fun s _ => (script.getD s last, s + 1),
    Update := fun s _ => (none, s) }

/-- The default cloner as main.go sets it up with user name `username`,
over a registry copy that fails exactly on the source images in `failing`. -/
def exampleCloner (username : String) (failing : List String) : controller.ImageCloner Nat :=
  ImageCloner.toInterface
    (ImageCloner.SetupForDocker
      { copy := fun _ s originalImage _ =>
          if originalImage ∈ failing then (some { msg := "copy failed", conflict := false }, s)
          else (none, s),
        cfg := { Username := "", Password := "" } }
      username "password")

/-- The default cloner of the example worlds before `SetupForDocker`: a
registry copy that always succeeds, and no credentials. -/
def exampleImageCloner : ImageCloner Nat :=
  { copy := fun _ s _ _ => (none, s), cfg := { Username := "", Password := "" } }

/-- A configuration whose secret read answers `res`, before the read. -/
def exampleConfig (res : Except Err Secret) : Config Nat :=
  { apiReader := fun s _ => (res, s + 1),
    DockerConfig := { Username := "", Password := "" },
    ControllerParams := { Namespace := "default", DockerSecretName := "image-cloner-creds" } }

/-! ## Lemmas: strings and finalizers -/

theorem HasPrefix_iff (s pre : String) :
    HasPrefix s pre = true ↔ ∃ t : String, s = pre ++ t := by
  unfold HasPrefix
  rw [List.isPrefixOf_iff_prefix]
  constructor
  · rintro ⟨t, ht⟩
    exact ⟨⟨t⟩, String.ext (by simp [ht])⟩
  · rintro ⟨t, rfl⟩
    exact ⟨t.data, by simp⟩

theorem foldl_keep (s : String) (slice acc : List String) :
    slice.foldl (fun result item => if item != s then result ++ [item] else result) acc
      = acc ++ slice.filter (fun item => item != s) := by
  induction slice generalizing acc with
  | nil => simp
  | cons x xs ih =>
    rw [List.foldl_cons, ih]
    by_cases h : x = s <;> simp [h]

theorem RemoveFinalizer_eq_filter (slice : List String) (s : String) :
    RemoveFinalizer slice s = slice.filter (fun item => item != s) := by
  unfold RemoveFinalizer
  rw [foldl_keep]
  simp

theorem not_mem_RemoveFinalizer (slice : List String) (s : String) :
    s ∉ RemoveFinalizer slice s := by
  rw [RemoveFinalizer_eq_filter]
  simp

theorem RemoveFinalizer_idem (slice : List String) (s : String) :
    RemoveFinalizer (RemoveFinalizer slice s) s = RemoveFinalizer slice s := by
  simp [RemoveFinalizer_eq_filter]

theorem setImage_at (done : List Container) (c : Container) (rest : List Container)
    (img : String) :
    setImage (done ++ c :: rest) done.length img = done ++ { c with Image := img } :: rest := by
  induction done with
  | nil => rfl
  | cons d ds ih => simp [setImage, ih]

/-! ## Lemmas: the loop over the containers -/

theorem reconcileLoop_cloned {σ : Type} (cloner : controller.ImageCloner σ) (p : String)
    (c : Container) (rest : List Container) (i : Nat) (obj : Workload) (s : σ)
    (h : cloner.IsCloned c.Image = true) :
    reconcileLoop cloner p (c :: rest) i obj s = reconcileLoop cloner p rest (i + 1) obj s := by
  simp [reconcileLoop, h]

theorem reconcileLoop_clone_err {σ : Type} (cloner : controller.ImageCloner σ) (p : String)
    (c : Container) (rest : List Container) (i : Nat) (obj : Workload) (s s1 : σ) (err : Err)
    (h : cloner.IsCloned c.Image = false)
    (hres : cloner.Clone s c.Image (p ++ "/" ++ ReplaceAll c.Image "/" "-") = (some err, s1)) :
    reconcileLoop cloner p (c :: rest) i obj s
      = (some err, obj, s1,
          [Call.clone c.Image (p ++ "/" ++ ReplaceAll c.Image "/" "-") (some err)]) := by
  simp [reconcileLoop, h, hres]

theorem reconcileLoop_clone_ok {σ : Type} (cloner : controller.ImageCloner σ) (p : String)
    (c : Container) (rest : List Container) (i : Nat) (obj : Workload) (s s1 : σ)
    (h : cloner.IsCloned c.Image = false)
    (hres : cloner.Clone s c.Image (p ++ "/" ++ ReplaceAll c.Image "/" "-") = (none, s1)) :
    reconcileLoop cloner p (c :: rest) i obj s
      = ((reconcileLoop cloner p rest (i + 1)
            (applyClone obj i (p ++ "/" ++ ReplaceAll c.Image "/" "-")) s1).1,
         (reconcileLoop cloner p rest (i + 1)
            (applyClone obj i (p ++ "/" ++ ReplaceAll c.Image "/" "-")) s1).2.1,
         (reconcileLoop cloner p rest (i + 1)
            (applyClone obj i (p ++ "/" ++ ReplaceAll c.Image "/" "-")) s1).2.2.1,
         Call.clone c.Image (p ++ "/" ++ ReplaceAll c.Image "/" "-") none ::
           (reconcileLoop cloner p rest (i + 1)
            (applyClone obj i (p ++ "/" ++ ReplaceAll c.Image "/" "-")) s1).2.2.2) := by
  simp [reconcileLoop, h, hres]

theorem reconcileLoop_ok {σ : Type} (cloner : controller.ImageCloner σ) (p : String) :
    ∀ (l done : List Container) (obj : Workload) (s : σ) (obj' : Workload) (s' : σ)
      (t : List Call),
      obj.Spec.Template.Spec.Containers = done ++ l →
      reconcileLoop cloner p l done.length obj s = (none, obj', s', t) →
      obj'.Spec.Template.Spec.Containers
          = done ++ l.map (fun w =>
              { w with Image := if cloner.IsCloned w.Image then w.Image
                                else p ++ "/" ++ ReplaceAll w.Image "/" "-" })
        ∧ obj'.ObjectMeta.Finalizers
          = (if l.all (fun w => cloner.IsCloned w.Image) then obj.ObjectMeta.Finalizers
             else RemoveFinalizer obj.ObjectMeta.Finalizers delProtectionFinalizerName)
        ∧ t = (l.filter (fun w => !cloner.IsCloned w.Image)).map
              (fun w => Call.clone w.Image (p ++ "/" ++ ReplaceAll w.Image "/" "-") none) := by
  intro l
  induction l with
  | nil =>
    intro done obj s obj' s' t hc h
    simp only [reconcileLoop, Prod.mk.injEq] at h
    obtain ⟨-, rfl, -, rfl⟩ := h
    simp [hc]
  | cons c rest ih =>
    intro done obj s obj' s' t hc h
    by_cases hcl : cloner.IsCloned c.Image = true
    · rw [reconcileLoop_cloned _ _ _ _ _ _ _ hcl] at h
      have h1 := ih (done ++ [c]) obj s obj' s' t (by simp [hc]) (by simpa using h)
      obtain ⟨h2, h3, h4⟩ := h1
      refine ⟨?_, ?_, ?_⟩
      · simp [h2, hcl]
      · simp [h3, hcl]
      · simp [h4, hcl]
    · have hcl' : cloner.IsCloned c.Image = false := by simpa using hcl
      rcases hres : cloner.Clone s c.Image (p ++ "/" ++ ReplaceAll c.Image "/" "-")
        with ⟨_ | err, s1⟩
      · rw [reconcileLoop_clone_ok _ _ _ _ _ _ _ _ hcl' hres] at h
        simp only [Prod.mk.injEq] at h
        obtain ⟨he, ho, hs, ht⟩ := h
        have h1 := ih (done ++ [{ c with Image := p ++ "/" ++ ReplaceAll c.Image "/" "-" }])
          (applyClone obj done.length (p ++ "/" ++ ReplaceAll c.Image "/" "-")) s1 obj' s'
          (reconcileLoop cloner p rest (done.length + 1)
            (applyClone obj done.length (p ++ "/" ++ ReplaceAll c.Image "/" "-")) s1).2.2.2
          (by simp [applyClone, hc, setImage_at])
          (by simp [← he, ← ho, ← hs])
        obtain ⟨h2, h3, h4⟩ := h1
        refine ⟨?_, ?_, ?_⟩
        · simp [h2, hcl']
        · simp [h3, hcl', applyClone, RemoveFinalizer_idem]
        · simp [← ht, h4, hcl']
      · rw [reconcileLoop_clone_err _ _ _ _ _ _ _ _ _ hcl' hres] at h
        simp at h

theorem reconcileLoop_err {σ : Type} (cloner : controller.ImageCloner σ) (p : String) :
    ∀ (l : List Container) (i : Nat) (obj : Workload) (s : σ) (e : Err) (obj' : Workload)
      (s' : σ) (t : List Call),
      reconcileLoop cloner p l i obj s = (some e, obj', s', t) →
      ∃ pre c post, l = pre ++ c :: post ∧ cloner.IsCloned c.Image = false
        ∧ t = (pre.filter (fun w => !cloner.IsCloned w.Image)).map
              (fun w => Call.clone w.Image (p ++ "/" ++ ReplaceAll w.Image "/" "-") none)
            ++ [Call.clone c.Image (p ++ "/" ++ ReplaceAll c.Image "/" "-") (some e)] := by
  intro l
  induction l with
  | nil =>
    intro i obj s e obj' s' t h
    simp [reconcileLoop] at h
  | cons c rest ih =>
    intro i obj s e obj' s' t h
    by_cases hcl : cloner.IsCloned c.Image = true
    · rw [reconcileLoop_cloned _ _ _ _ _ _ _ hcl] at h
      obtain ⟨pre, d, post, h1, h2, h3⟩ := ih _ _ _ _ _ _ _ h
      exact ⟨c :: pre, d, post, by simp [h1], h2, by simp [h3, hcl]⟩
    · have hcl' : cloner.IsCloned c.Image = false := by simpa using hcl
      rcases hres : cloner.Clone s c.Image (p ++ "/" ++ ReplaceAll c.Image "/" "-")
        with ⟨_ | err, s1⟩
      · rw [reconcileLoop_clone_ok _ _ _ _ _ _ _ _ hcl' hres] at h
        simp only [Prod.mk.injEq] at h
        obtain ⟨he, ho, hs, ht⟩ := h
        obtain ⟨pre, d, post, h1, h2, h3⟩ := ih (i + 1)
          (applyClone obj i (p ++ "/" ++ ReplaceAll c.Image "/" "-")) s1 e obj' s'
          (reconcileLoop cloner p rest (i + 1)
            (applyClone obj i (p ++ "/" ++ ReplaceAll c.Image "/" "-")) s1).2.2.2
          (by simp [← he, ← ho, ← hs])
        exact ⟨c :: pre, d, post, by simp [h1], h2, by simp [← ht, h3, hcl']⟩
      · rw [reconcileLoop_clone_err _ _ _ _ _ _ _ _ _ hcl' hres] at h
        simp only [Prod.mk.injEq, Option.some.injEq] at h
        obtain ⟨rfl, -, -, rfl⟩ := h
        exact ⟨[], c, rest, rfl, hcl', by simp⟩

/-! ## Lemmas: the write under conflict retry -/

theorem updateLatest_cases {σ : Type} (cl : Client σ) (req : NamespacedName) (obj : Workload)
    (s : σ) :
    (∃ err s1, cl.Get s req = (.error err, s1)
        ∧ updateLatest cl req obj s = (some err, s1, [Call.get req (.error err)]))
      ∨ (∃ latest s1 res s2, cl.Get s req = (.ok latest, s1)
        ∧ cl.Update s1 (splice latest obj) = (res, s2)
        ∧ updateLatest cl req obj s
            = (res, s2, [Call.get req (.ok latest), Call.update (splice latest obj) res])) := by
  rcases hg : cl.Get s req with ⟨_ | latest, s1⟩
  · left
    exact ⟨_, s1, rfl, by simp [updateLatest, hg]⟩
  · right
    rcases hu : cl.Update s1 (splice latest obj) with ⟨res, s2⟩
    exact ⟨latest, s1, res, s2, rfl, hu, by simp [updateLatest, hg, hu]⟩

theorem finalUpdate_append_some (a b : List Call) (o : Workload)
    (h : finalUpdate b = some o) : finalUpdate (a ++ b) = some o := by
  induction a with
  | nil => simpa using h
  | cons x xs ih =>
    cases x <;> simp [finalUpdate, ih]

theorem RetryOnConflict_done {σ : Type} (fn : σ → Option Err × σ × List Call) (n : Nat)
    (le : Option Err) (s s1 : σ) (t : List Call) (h : fn s = (none, s1, t)) :
    RetryOnConflict fn (n + 1) le s = (none, s1, t) := by
  simp [RetryOnConflict, h]

theorem RetryOnConflict_fail {σ : Type} (fn : σ → Option Err × σ × List Call) (n : Nat)
    (le : Option Err) (s s1 : σ) (t : List Call) (err : Err) (h : fn s = (some err, s1, t))
    (hc : err.conflict = false) :
    RetryOnConflict fn (n + 1) le s = (some err, s1, t) := by
  simp [RetryOnConflict, h, hc]

theorem RetryOnConflict_again {σ : Type} (fn : σ → Option Err × σ × List Call) (n : Nat)
    (le : Option Err) (s s1 : σ) (t : List Call) (err : Err) (h : fn s = (some err, s1, t))
    (hc : err.conflict = true) :
    RetryOnConflict fn (n + 1) le s
      = ((RetryOnConflict fn n (some err) s1).1, (RetryOnConflict fn n (some err) s1).2.1,
          t ++ (RetryOnConflict fn n (some err) s1).2.2) := by
  simp [RetryOnConflict, h, hc]

/-- The shape of the calls of the retried write: a sequence of attempts,
each a failed `Get` or a `Get` followed by the `Update` of the spliced
object. -/
theorem RetryOnConflict_shape {σ : Type} (cl : Client σ) (req : NamespacedName)
    (obj : Workload) :
    ∀ (n : Nat) (le : Option Err) (s : σ) (P : List Call → Prop),
      P [] →
      (∀ err rest, P rest → P (Call.get req (.error err) :: rest)) →
      (∀ latest res rest, P rest →
        P (Call.get req (.ok latest) :: Call.update (splice latest obj) res :: rest)) →
      P (RetryOnConflict (updateLatest cl req obj) n le s).2.2 := by
  intro n
  induction n with
  | zero =>
    intro le s P h0 _ _
    simpa [RetryOnConflict] using h0
  | succ n ih =>
    intro le s P h0 h1 h2
    rcases updateLatest_cases cl req obj s with
      ⟨err, s1, -, hu⟩ | ⟨latest, s1, res, s2, -, -, hu⟩
    · by_cases hc : err.conflict = true
      · rw [RetryOnConflict_again _ _ _ _ _ _ _ hu hc]
        exact h1 _ _ (ih (some err) s1 P h0 h1 h2)
      · rw [RetryOnConflict_fail _ _ _ _ _ _ _ hu (by simpa using hc)]
        exact h1 _ _ h0
    · cases res with
      | none =>
        rw [RetryOnConflict_done _ _ _ _ _ _ hu]
        exact h2 _ _ _ h0
      | some err =>
        by_cases hc : err.conflict = true
        · rw [RetryOnConflict_again _ _ _ _ _ _ _ hu hc]
          exact h2 _ _ _ (ih (some err) s2 P h0 h1 h2)
        · rw [RetryOnConflict_fail _ _ _ _ _ _ _ hu (by simpa using hc)]
          exact h2 _ _ _ h0

theorem RetryOnConflict_final {σ : Type} (cl : Client σ) (req : NamespacedName)
    (obj : Workload) :
    ∀ (n : Nat) (le : Option Err) (s : σ),
      (RetryOnConflict (updateLatest cl req obj) (n + 1) le s).1 = none →
      ∃ latest,
        finalUpdate (RetryOnConflict (updateLatest cl req obj) (n + 1) le s).2.2
          = some (splice latest obj) := by
  intro n
  induction n with
  | zero =>
    intro le s h
    rcases updateLatest_cases cl req obj s with
      ⟨err, s1, -, hu⟩ | ⟨latest, s1, res, s2, -, -, hu⟩
    · by_cases hc : err.conflict = true
      · rw [RetryOnConflict_again _ _ _ _ _ _ _ hu hc] at h
        simp [RetryOnConflict] at h
      · rw [RetryOnConflict_fail _ _ _ _ _ _ _ hu (by simpa using hc)] at h
        simp at h
    · cases res with
      | none =>
        rw [RetryOnConflict_done _ _ _ _ _ _ hu]
        exact ⟨latest, by simp [finalUpdate]⟩
      | some err =>
        by_cases hc : err.conflict = true
        · rw [RetryOnConflict_again _ _ _ _ _ _ _ hu hc] at h
          simp [RetryOnConflict] at h
        · rw [RetryOnConflict_fail _ _ _ _ _ _ _ hu (by simpa using hc)] at h
          simp at h
  | succ n ih =>
    intro le s h
    rcases updateLatest_cases cl req obj s with
      ⟨err, s1, -, hu⟩ | ⟨latest, s1, res, s2, -, -, hu⟩
    · by_cases hc : err.conflict = true
      · rw [RetryOnConflict_again _ _ _ _ _ _ _ hu hc] at h ⊢
        obtain ⟨latest, hl⟩ := ih (some err) s1 h
        exact ⟨latest, finalUpdate_append_some _ _ _ hl⟩
      · rw [RetryOnConflict_fail _ _ _ _ _ _ _ hu (by simpa using hc)] at h
        simp at h
    · cases res with
      | none =>
        rw [RetryOnConflict_done _ _ _ _ _ _ hu]
        exact ⟨latest, by simp [finalUpdate]⟩
      | some err =>
        by_cases hc : err.conflict = true
        · rw [RetryOnConflict_again _ _ _ _ _ _ _ hu hc] at h ⊢
          obtain ⟨latest', hl⟩ := ih (some err) s2 h
          exact ⟨latest', finalUpdate_append_some _ _ _ hl⟩
        · rw [RetryOnConflict_fail _ _ _ _ _ _ _ hu (by simpa using hc)] at h
          simp at h

/-! ## Lemmas: a whole reconciliation -/

theorem Daemonset_run_err {σ : Type} (cl : Client σ) (cn : controller.ImageCloner σ)
    (p : String) (s s1 s2 : σ) (req : NamespacedName) (W o : Workload) (e : Err)
    (t : List Call) (hget : cl.Get s req = (.ok W, s1))
    (hL : reconcileLoop cn p W.Spec.Template.Spec.Containers 0 W s1 = (some e, o, s2, t)) :
    DaemonsetReconciler.Reconcile ⟨cl, cn, p⟩ s req
      = { result := Result.empty, err := some e, state := s2,
          trace := Call.get req (.ok W) :: t } := by
  simp [DaemonsetReconciler.Reconcile, hget, hL]

theorem Daemonset_run_ok {σ : Type} (cl : Client σ) (cn : controller.ImageCloner σ)
    (p : String) (s s1 s2 : σ) (req : NamespacedName) (W o : Workload)
    (t : List Call) (hget : cl.Get s req = (.ok W, s1))
    (hL : reconcileLoop cn p W.Spec.Template.Spec.Containers 0 W s1 = (none, o, s2, t)) :
    DaemonsetReconciler.Reconcile ⟨cl, cn, p⟩ s req
      = { result := Result.empty,
          err := (RetryOnConflict (updateLatest cl req o) DefaultRetrySteps none s2).1,
          state := (RetryOnConflict (updateLatest cl req o) DefaultRetrySteps none s2).2.1,
          trace := Call.get req (.ok W) ::
            (t ++ (RetryOnConflict (updateLatest cl req o) DefaultRetrySteps none s2).2.2) } := by
  simp only [DaemonsetReconciler.Reconcile, hget, hL]
  rcases RetryOnConflict (updateLatest cl req o) DefaultRetrySteps none s2 with ⟨_ | e, s3, t3⟩
    <;> rfl

theorem Deployment_eq_Daemonset {σ : Type} (cl : Client σ) (cn : controller.ImageCloner σ)
    (p : String) (s s1 : σ) (req : NamespacedName) (W : Workload)
    (hget : cl.Get s req = (.ok W, s1)) :
    DeploymentReconciler.Reconcile ⟨cl, cn, p⟩ s req
      = DaemonsetReconciler.Reconcile ⟨cl, cn, p⟩ s req := by
  simp only [DeploymentReconciler.Reconcile, DaemonsetReconciler.Reconcile, hget]

theorem run_of_either {σ : Type} (cl : Client σ) (cn : controller.ImageCloner σ)
    (p : String) (s s1 : σ) (req : NamespacedName) (W : Workload) (out : Outcome σ)
    (hout : out = DeploymentReconciler.Reconcile ⟨cl, cn, p⟩ s req
      ∨ out = DaemonsetReconciler.Reconcile ⟨cl, cn, p⟩ s req)
    (hget : cl.Get s req = (.ok W, s1)) :
    out = DaemonsetReconciler.Reconcile ⟨cl, cn, p⟩ s req := by
  rcases hout with h | h
  · rw [h, Deployment_eq_Daemonset cl cn p s s1 req W hget]
  · exact h

theorem updateCalls_clones (l : List Container) (f : Container → String) (b : List Call) :
    updateCalls (l.map (fun w => Call.clone w.Image (f w) none) ++ b) = updateCalls b := by
  induction l with
  | nil => rfl
  | cons x xs ih => simpa [updateCalls] using ih

theorem updateCalls_retry {σ : Type} (cl : Client σ) (req : NamespacedName) (obj : Workload)
    (n : Nat) (le : Option Err) (s : σ) :
    ∀ u ∈ updateCalls (RetryOnConflict (updateLatest cl req obj) n le s).2.2,
      ∃ latest, u = splice latest obj := by
  refine RetryOnConflict_shape cl req obj n le s
    (fun t => ∀ u ∈ updateCalls t, ∃ latest, u = splice latest obj) ?_ ?_ ?_
  · intro u hu
    simp [updateCalls] at hu
  · intro err rest ih u hu
    exact ih u (by simpa [updateCalls] using hu)
  · intro latest res rest ih u hu
    simp only [updateCalls, List.mem_cons] at hu
    rcases hu with rfl | hu
    · exact ⟨latest, rfl⟩
    · exact ih u hu

/-- What a reconciliation that returns no error has done, given the object
`W` fetched on entry. -/
theorem run_success {σ : Type} (cl : Client σ) (cn : controller.ImageCloner σ)
    (p : String) (s s1 : σ) (req : NamespacedName) (W : Workload)
    (hget : cl.Get s req = (.ok W, s1))
    (hok : (DaemonsetReconciler.Reconcile ⟨cl, cn, p⟩ s req).err = none) :
    ∃ O latest,
      O.Spec.Template.Spec.Containers
          = W.Spec.Template.Spec.Containers.map (fun w =>
              { w with Image := if cn.IsCloned w.Image then w.Image
                                else p ++ "/" ++ ReplaceAll w.Image "/" "-" })
        ∧ O.ObjectMeta.Finalizers
          = (if W.Spec.Template.Spec.Containers.all (fun w => cn.IsCloned w.Image)
             then W.ObjectMeta.Finalizers
             else RemoveFinalizer W.ObjectMeta.Finalizers delProtectionFinalizerName)
        ∧ finalUpdate (DaemonsetReconciler.Reconcile ⟨cl, cn, p⟩ s req).trace
          = some (splice latest O)
        ∧ ∀ u ∈ updateCalls (DaemonsetReconciler.Reconcile ⟨cl, cn, p⟩ s req).trace,
            ∃ l, u = splice l O := by
  rcases hL : reconcileLoop cn p W.Spec.Template.Spec.Containers 0 W s1 with ⟨_ | e, O, s2, t⟩
  · obtain ⟨h1, h2, h3⟩ := reconcileLoop_ok cn p W.Spec.Template.Spec.Containers [] W s1 O s2 t
      (by simp) (by simpa using hL)
    rw [Daemonset_run_ok cl cn p s s1 s2 req W O t hget hL] at hok ⊢
    simp only at hok ⊢
    obtain ⟨latest, hl⟩ := RetryOnConflict_final cl req O 4 none s2 hok
    refine ⟨O, latest, by simpa using h1, h2, ?_, ?_⟩
    · have : finalUpdate (t ++ (RetryOnConflict (updateLatest cl req O) DefaultRetrySteps
          none s2).2.2) = some (splice latest O) := finalUpdate_append_some _ _ _ hl
      simpa [finalUpdate] using this
    · intro u hu
      rw [h3] at hu
      simp only [updateCalls] at hu
      rw [updateCalls_clones] at hu
      exact updateCalls_retry cl req O _ _ _ u hu
  · rw [Daemonset_run_err cl cn p s s1 s2 req W O e t hget hL] at hok
    simp at hok

theorem no_clone_in_retry {σ : Type} (cl : Client σ) (req : NamespacedName) (obj : Workload)
    (n : Nat) (le : Option Err) (s : σ) :
    ∀ x ∈ (RetryOnConflict (updateLatest cl req obj) n le s).2.2,
      ∀ a b r, x ≠ Call.clone a b r := by
  refine RetryOnConflict_shape cl req obj n le s
    (fun t => ∀ x ∈ t, ∀ a b r, x ≠ Call.clone a b r) ?_ ?_ ?_
  · intro x hx
    simp at hx
  · intro err rest ih x hx a b r
    simp only [List.mem_cons] at hx
    rcases hx with rfl | hx
    · simp
    · exact ih x hx a b r
  · intro latest res rest ih x hx a b r
    simp only [List.mem_cons] at hx
    rcases hx with rfl | rfl | hx
    · simp
    · simp
    · exact ih x hx a b r

theorem updateCalls_clones_only (l : List Container) (f : Container → String) (src dst : String)
    (r : Option Err) :
    updateCalls (l.map (fun w => Call.clone w.Image (f w) none) ++ [Call.clone src dst r])
      = [] := by
  rw [updateCalls_clones]
  rfl

theorem reconcileLoop_all_cloned {σ : Type} (cn : controller.ImageCloner σ) (p : String) :
    ∀ (l : List Container) (i : Nat) (obj : Workload) (s : σ),
      (∀ c ∈ l, cn.IsCloned c.Image = true) →
      reconcileLoop cn p l i obj s = (none, obj, s, []) := by
  intro l
  induction l with
  | nil =>
    intro i obj s _
    rfl
  | cons c rest ih =>
    intro i obj s h
    rw [reconcileLoop_cloned _ _ _ _ _ _ _ (h c (List.mem_cons_self _ _))]
    exact ih _ _ _ (fun d hd => h d (List.mem_cons_of_mem _ hd))

theorem cloneCalls_retry {σ : Type} (cl : Client σ) (req : NamespacedName) (obj : Workload)
    (n : Nat) (le : Option Err) (s : σ) :
    cloneCalls (RetryOnConflict (updateLatest cl req obj) n le s).2.2 = [] := by
  refine RetryOnConflict_shape cl req obj n le s (fun t => cloneCalls t = []) rfl ?_ ?_
  · intro err rest ih
    simpa [cloneCalls] using ih
  · intro latest res rest ih
    simpa [cloneCalls] using ih

theorem writesAfterFetch_retry {σ : Type} (cl : Client σ) (req : NamespacedName)
    (obj : Workload) (n : Nat) (le : Option Err) (s : σ) :
    ∀ prev, ∀ x ∈ writesAfterFetch prev (RetryOnConflict (updateLatest cl req obj) n le s).2.2,
      ∃ latest, x = (some latest, splice latest obj) := by
  refine RetryOnConflict_shape cl req obj n le s
    (fun t => ∀ prev, ∀ x ∈ writesAfterFetch prev t,
      ∃ latest, x = (some latest, splice latest obj)) ?_ ?_ ?_
  · intro prev x hx
    simp [writesAfterFetch] at hx
  · intro err rest ih prev x hx
    exact ih none x (by simpa [writesAfterFetch] using hx)
  · intro latest res rest ih prev x hx
    simp only [writesAfterFetch, List.mem_cons] at hx
    rcases hx with rfl | hx
    · exact ⟨latest, rfl⟩
    · exact ih none x hx

theorem splice_eq_self_iff (latest W : Workload) :
    splice latest W = latest
      ↔ latest.Spec.Template.Spec.Containers = W.Spec.Template.Spec.Containers
        ∧ latest.ObjectMeta.Finalizers = W.ObjectMeta.Finalizers := by
  constructor
  · intro h
    constructor
    · exact (congrArg (fun o => o.Spec.Template.Spec.Containers) h).symm
    · exact (congrArg (fun o => o.ObjectMeta.Finalizers) h).symm
  · rintro ⟨h1, h2⟩
    simp only [splice, ← h1, ← h2]

theorem reconcileLoop_first_failure {σ : Type} (cn : controller.ImageCloner σ) (p : String)
    (c : Container) (post : List Container) (e : Err) (s' : σ)
    (hc : cn.IsCloned c.Image = false) :
    ∀ (pre : List Container) (i : Nat) (obj : Workload) (st : Nat → σ),
      (∀ j w, pre[j]? = some w →
        if cn.IsCloned w.Image = true then st (j + 1) = st j
        else cn.Clone (st j) w.Image (p ++ "/" ++ ReplaceAll w.Image "/" "-")
              = (none, st (j + 1))) →
      cn.Clone (st pre.length) c.Image (p ++ "/" ++ ReplaceAll c.Image "/" "-") = (some e, s') →
      ∃ obj', reconcileLoop cn p (pre ++ c :: post) i obj (st 0)
        = (some e, obj', s',
            (pre.filter (fun w => !cn.IsCloned w.Image)).map
                (fun w => Call.clone w.Image (p ++ "/" ++ ReplaceAll w.Image "/" "-") none)
              ++ [Call.clone c.Image (p ++ "/" ++ ReplaceAll c.Image "/" "-") (some e)]) := by
  intro pre
  induction pre with
  | nil =>
    intro i obj st _ hf
    exact ⟨obj, by simpa using reconcileLoop_clone_err cn p c post i obj (st 0) s' e hc hf⟩
  | cons w pre ih =>
    intro i obj st h hf
    have h0 := h 0 w (by simp)
    have hrest : ∀ j v, pre[j]? = some v →
        if cn.IsCloned v.Image = true then st (j + 1 + 1) = st (j + 1)
        else cn.Clone (st (j + 1)) v.Image (p ++ "/" ++ ReplaceAll v.Image "/" "-")
              = (none, st (j + 1 + 1)) := by
      intro j v hv
      exact h (j + 1) v (by simpa using hv)
    by_cases hcl : cn.IsCloned w.Image = true
    · rw [if_pos hcl] at h0
      obtain ⟨obj', ho⟩ := ih (i + 1) obj (fun n => st (n + 1)) hrest (by simpa using hf)
      refine ⟨obj', ?_⟩
      rw [List.cons_append, reconcileLoop_cloned _ _ _ _ _ _ _ hcl]
      simp only [Nat.zero_add] at ho
      rw [← h0, ho]
      simp [hcl]
    · rw [if_neg hcl] at h0
      have hcl' : cn.IsCloned w.Image = false := by simpa using hcl
      obtain ⟨obj', ho⟩ := ih (i + 1)
        (applyClone obj i (p ++ "/" ++ ReplaceAll w.Image "/" "-")) (fun n => st (n + 1)) hrest
        (by simpa using hf)
      refine ⟨obj', ?_⟩
      simp only [Nat.zero_add] at ho h0
      rw [List.cons_append, reconcileLoop_clone_ok _ _ _ _ _ _ _ _ hcl' h0, ho]
      simp [hcl']

theorem split_at_index (l : List Container) (k : Nat) (c : Container) (h : l[k]? = some c) :
    l = l.take k ++ c :: l.drop (k + 1) ∧ (l.take k).length = k := by
  obtain ⟨hk, hc⟩ := List.getElem?_eq_some.1 h
  constructor
  · conv_lhs => rw [← List.take_append_drop k l, List.drop_eq_getElem_cons hk]
    simp [hc]
  · simp [List.length_take, Nat.min_eq_left (Nat.le_of_lt hk)]

/-- A failed `Clone` in the trace of a run whose entry fetch returned `W`
is the `Clone` of some container `k` of `W`, and the run is then the entry
`Get`, the successful clones before `k` and that failed clone. -/
theorem failed_clone_in_trace {σ : Type} (cl : Client σ)
    (cn : controller.ImageCloner σ) (p : String) (s s1 : σ) (req : NamespacedName)
    (W : Workload) (out : Outcome σ) (src dst : String) (e : Err)
    (hout : out = DeploymentReconciler.Reconcile ⟨cl, cn, p⟩ s req
      ∨ out = DaemonsetReconciler.Reconcile ⟨cl, cn, p⟩ s req)
    (hget : cl.Get s req = (.ok W, s1))
    (hfail : Call.clone src dst (some e) ∈ out.trace) :
    out.result = Result.empty
      ∧ out.err = some e
      ∧ updateCalls out.trace = []
      ∧ ∃ (k : Nat) (c : Container),
          W.Spec.Template.Spec.Containers[k]? = some c
          ∧ cn.IsCloned c.Image = false
          ∧ src = c.Image
          ∧ dst = p ++ "/" ++ ReplaceAll c.Image "/" "-"
          ∧ out.trace
            = Call.get req (.ok W) ::
                (((W.Spec.Template.Spec.Containers.take k).filter
                    (fun w => !cn.IsCloned w.Image)).map
                  (fun w => Call.clone w.Image (p ++ "/" ++ ReplaceAll w.Image "/" "-") none)
                ++ [Call.clone src dst (some e)]) := by
  have hd := run_of_either cl cn p s s1 req W out hout hget
  subst hd
  rcases hL : reconcileLoop cn p W.Spec.Template.Spec.Containers 0 W s1 with ⟨_ | e', O, s2, t⟩
  · exfalso
    obtain ⟨-, -, h3⟩ := reconcileLoop_ok cn p W.Spec.Template.Spec.Containers [] W s1 O s2 t
      (by simp) (by simpa using hL)
    rw [Daemonset_run_ok cl cn p s s1 s2 req W O t hget hL] at hfail
    simp only [List.mem_cons, List.mem_append] at hfail
    rcases hfail with h | h | h
    · simp at h
    · rw [h3] at h
      simp at h
    · exact no_clone_in_retry cl req O _ _ _ _ h _ _ _ rfl
  · obtain ⟨pre, c, post, h1, h2, h3⟩ :=
      reconcileLoop_err cn p W.Spec.Template.Spec.Containers 0 W s1 e' O s2 t hL
    rw [Daemonset_run_err cl cn p s s1 s2 req W O e' t hget hL] at hfail ⊢
    simp only [h3, List.mem_cons, List.mem_append, List.mem_map, List.mem_singleton] at hfail
    have hk : src = c.Image ∧ dst = p ++ "/" ++ ReplaceAll c.Image "/" "-" ∧ e = e' := by
      rcases hfail with h | h | h
      · simp at h
      · obtain ⟨w, -, hw⟩ := h
        simp at hw
      · simpa using h
    obtain ⟨rfl, rfl, rfl⟩ := hk
    refine ⟨rfl, rfl, ?_, pre.length, c, ?_, h2, rfl, rfl, ?_⟩
    · simp only [updateCalls, h3]
      exact updateCalls_clones_only _ _ _ _ _
    · rw [h1, List.getElem?_append_right (Nat.le_refl _)]
      simp
    · simp [h1, h3]

/-! ## The claims -/

/-- C1 (as stated, refuted): with mirror prefix `acme`, a Deployment whose
only image is `acmecorp/app:1` is reconciled without error by the default
cloner, and the image in the object passed to the final `Update` is still
`acmecorp/app:1`, which does not begin with `acme/`. -/
theorem C1_counterexample :
    (DeploymentReconciler.Reconcile
        ⟨scriptedClient [] (.ok (exampleWorkload ["acmecorp/app:1"] [])),
          exampleCloner "acme" [], "acme"⟩ 0 exampleRequest).err = none
      ∧ (finalUpdate (DeploymentReconciler.Reconcile
            ⟨scriptedClient [] (.ok (exampleWorkload ["acmecorp/app:1"] [])),
              exampleCloner "acme" [], "acme"⟩ 0 exampleRequest).trace).map
          (fun obj => obj.Spec.Template.Spec.Containers.map (fun c => c.Image))
        = some ["acmecorp/app:1"]
      ∧ ¬ ∃ t : String, "acmecorp/app:1" = "acme" ++ "/" ++ t := by
  refine ⟨by decide, by decide, ?_⟩
  intro h
  exact absurd ((HasPrefix_iff _ _).2 h) (by decide)

/-- C1 (amended): for every mirror prefix `p`, for the Deployment and the
DaemonSet reconciler with the default cloner set up with user name `p`, and
for every run that fetched `W` on entry and returns no error, every
container image in the object passed to the final `Update` begins with `p`,
and it either begins with `p ++ "/"` or is a container of `W` left as it
was (its image began with `p` on entry). -/
theorem C1_final_update_images_begin_with_prefix {σ : Type} (cl : Client σ)
    (ic : ImageCloner σ) (password p : String) (s s1 : σ) (req : NamespacedName)
    (W : Workload) (out : Outcome σ)
    (hout : out = DeploymentReconciler.Reconcile
          ⟨cl, ImageCloner.toInterface (ImageCloner.SetupForDocker ic p password), p⟩ s req
      ∨ out = DaemonsetReconciler.Reconcile
          ⟨cl, ImageCloner.toInterface (ImageCloner.SetupForDocker ic p password), p⟩ s req)
    (hget : cl.Get s req = (.ok W, s1))
    (hok : out.err = none) :
    ∃ obj, finalUpdate out.trace = some obj
      ∧ ∀ c ∈ obj.Spec.Template.Spec.Containers,
          (∃ t : String, c.Image = p ++ t)
          ∧ ((∃ t : String, c.Image = p ++ "/" ++ t)
              ∨ c ∈ W.Spec.Template.Spec.Containers) := by
  have hd := run_of_either cl _ p s s1 req W out hout hget
  subst hd
  obtain ⟨O, latest, h1, -, h3, -⟩ := run_success cl _ p s s1 req W hget hok
  refine ⟨splice latest O, h3, ?_⟩
  intro c hc
  have hc' : c ∈ O.Spec.Template.Spec.Containers := hc
  rw [h1, List.mem_map] at hc'
  obtain ⟨w, hw, rfl⟩ := hc'
  by_cases hcl : HasPrefix w.Image p = true
  · have hI : (ImageCloner.toInterface (ImageCloner.SetupForDocker ic p password)).IsCloned
        w.Image = true := hcl
    simp only [hI, if_true]
    exact ⟨(HasPrefix_iff _ _).1 hcl, Or.inr hw⟩
  · have hI : (ImageCloner.toInterface (ImageCloner.SetupForDocker ic p password)).IsCloned
        w.Image = false := by
      simpa [ImageCloner.toInterface, ImageCloner.IsCloned, ImageCloner.SetupForDocker]
        using hcl
    simp only [hI]
    refine ⟨⟨"/" ++ ReplaceAll w.Image "/" "-", ?_⟩, Or.inl ⟨ReplaceAll w.Image "/" "-", ?_⟩⟩
    · simp [String.append_assoc]
    · simp

/-- C1, witness: the amended claim at the Deployment of the counterexample
together with an image that is rewritten. -/
theorem C1_final_update_images_begin_with_prefix_witness :
    (scriptedClient [] (.ok (exampleWorkload ["acmecorp/app:1", "nginx:1.25"] []))).Get 0
        exampleRequest
      = (.ok (exampleWorkload ["acmecorp/app:1", "nginx:1.25"] []), 1)
    ∧ (DeploymentReconciler.Reconcile
        ⟨scriptedClient [] (.ok (exampleWorkload ["acmecorp/app:1", "nginx:1.25"] [])),
          exampleCloner "acme" [], "acme"⟩ 0 exampleRequest).err = none
    ∧ ∃ obj, finalUpdate (DeploymentReconciler.Reconcile
        ⟨scriptedClient [] (.ok (exampleWorkload ["acmecorp/app:1", "nginx:1.25"] [])),
          exampleCloner "acme" [], "acme"⟩ 0 exampleRequest).trace = some obj
      ∧ ∀ c ∈ obj.Spec.Template.Spec.Containers,
          (∃ t : String, c.Image = "acme" ++ t)
          ∧ ((∃ t : String, c.Image = "acme" ++ "/" ++ t)
              ∨ c ∈ (exampleWorkload ["acmecorp/app:1", "nginx:1.25"]
                      []).Spec.Template.Spec.Containers) :=
  ⟨rfl, by decide,
    C1_final_update_images_begin_with_prefix
      (scriptedClient [] (.ok (exampleWorkload ["acmecorp/app:1", "nginx:1.25"] [])))
      { copy := fun _ s originalImage _ =>
          if originalImage ∈ ([] : List String) then
            (some { msg := "copy failed", conflict := false }, s)
          else (none, s),
        cfg := { Username := "", Password := "" } }
      "password" "acme" 0 1 exampleRequest
      (exampleWorkload ["acmecorp/app:1", "nginx:1.25"] []) _ (Or.inl rfl) rfl (by decide)⟩

/-- C2: for the Deployment and the DaemonSet reconciler, every workload
object `W` fetched on entry and every run that returns no error, the
container list passed to `Update` (the final one, and the same list in
every earlier attempt) has the length of `W`'s list, and at every index
holds `W`'s container with the same `Name` and `Args` and with the image
`W`'s image when the cloner reports it mirrored and otherwise
`p ++ "/" ++ ReplaceAll image "/" "-"`. -/
theorem C2_update_keeps_containers_and_rewrites_images {σ : Type} (cl : Client σ)
    (cn : controller.ImageCloner σ) (p : String) (s s1 : σ) (req : NamespacedName)
    (W : Workload) (out : Outcome σ)
    (hout : out = DeploymentReconciler.Reconcile ⟨cl, cn, p⟩ s req
      ∨ out = DaemonsetReconciler.Reconcile ⟨cl, cn, p⟩ s req)
    (hget : cl.Get s req = (.ok W, s1))
    (hok : out.err = none) :
    ∃ obj, finalUpdate out.trace = some obj
      ∧ (∀ u ∈ updateCalls out.trace,
          u.Spec.Template.Spec.Containers = obj.Spec.Template.Spec.Containers)
      ∧ obj.Spec.Template.Spec.Containers.length = W.Spec.Template.Spec.Containers.length
      ∧ ∀ (i : Nat) (w : Container), W.Spec.Template.Spec.Containers[i]? = some w →
          obj.Spec.Template.Spec.Containers[i]?
            = some { Name := w.Name,
                     Image := if cn.IsCloned w.Image then w.Image
                              else p ++ "/" ++ ReplaceAll w.Image "/" "-",
                     Args := w.Args } := by
  have hd := run_of_either cl cn p s s1 req W out hout hget
  subst hd
  obtain ⟨O, latest, h1, -, h3, h4⟩ := run_success cl cn p s s1 req W hget hok
  have hs : (splice latest O).Spec.Template.Spec.Containers
      = O.Spec.Template.Spec.Containers := rfl
  refine ⟨splice latest O, h3, ?_, ?_, ?_⟩
  · intro u hu
    obtain ⟨l, rfl⟩ := h4 u hu
    rfl
  · rw [hs, h1, List.length_map]
  · intro i w hw
    rw [hs, h1, List.getElem?_map, hw]
    rfl

/-- C2, witness: prefix `acme` and images `nginx:1.25`, `redis:7` persist
as `acme/nginx:1.25`, `acme/redis:7`, and the image
`quay.io/library/nginx:1.25` persists as `acme/quay.io-library-nginx:1.25`. -/
theorem C2_update_keeps_containers_and_rewrites_images_witness :
    (scriptedClient [] (.ok (exampleWorkload ["nginx:1.25", "redis:7"] []))).Get 0
        exampleRequest
      = (.ok (exampleWorkload ["nginx:1.25", "redis:7"] []), 1)
    ∧ (DeploymentReconciler.Reconcile
        ⟨scriptedClient [] (.ok (exampleWorkload ["nginx:1.25", "redis:7"] [])),
          exampleCloner "acme" [], "acme"⟩ 0 exampleRequest).err = none
    ∧ (finalUpdate (DeploymentReconciler.Reconcile
          ⟨scriptedClient [] (.ok (exampleWorkload ["nginx:1.25", "redis:7"] [])),
            exampleCloner "acme" [], "acme"⟩ 0 exampleRequest).trace).map
        (fun obj => obj.Spec.Template.Spec.Containers.map (fun c => c.Image))
      = some ["acme/nginx:1.25", "acme/redis:7"]
    ∧ (finalUpdate (DaemonsetReconciler.Reconcile
          ⟨scriptedClient [] (.ok (exampleWorkload ["quay.io/library/nginx:1.25"] [])),
            exampleCloner "acme" [], "acme"⟩ 0 exampleRequest).trace).map
        (fun obj => obj.Spec.Template.Spec.Containers.map (fun c => c.Image))
      = some ["acme/quay.io-library-nginx:1.25"]
    ∧ ∃ obj, finalUpdate (DeploymentReconciler.Reconcile
          ⟨scriptedClient [] (.ok (exampleWorkload ["nginx:1.25", "redis:7"] [])),
            exampleCloner "acme" [], "acme"⟩ 0 exampleRequest).trace = some obj
      ∧ (∀ u ∈ updateCalls (DeploymentReconciler.Reconcile
            ⟨scriptedClient [] (.ok (exampleWorkload ["nginx:1.25", "redis:7"] [])),
              exampleCloner "acme" [], "acme"⟩ 0 exampleRequest).trace,
          u.Spec.Template.Spec.Containers = obj.Spec.Template.Spec.Containers)
      ∧ obj.Spec.Template.Spec.Containers.length
          = (exampleWorkload ["nginx:1.25", "redis:7"] []).Spec.Template.Spec.Containers.length
      ∧ ∀ (i : Nat) (w : Container),
          (exampleWorkload ["nginx:1.25", "redis:7"] []).Spec.Template.Spec.Containers[i]?
            = some w →
          obj.Spec.Template.Spec.Containers[i]?
            = some { Name := w.Name,
                     Image := if (exampleCloner "acme" []).IsCloned w.Image then w.Image
                              else "acme" ++ "/" ++ ReplaceAll w.Image "/" "-",
                     Args := w.Args } :=
  ⟨rfl, by decide, by decide, by decide,
    C2_update_keeps_containers_and_rewrites_images
      (scriptedClient [] (.ok (exampleWorkload ["nginx:1.25", "redis:7"] [])))
      (exampleCloner "acme" []) "acme" 0 1 exampleRequest
      (exampleWorkload ["nginx:1.25", "redis:7"] []) _ (Or.inl rfl) rfl (by decide)⟩

/-- C3 (as stated, refuted): a Deployment whose only image `acme/foo:1` is
already mirrored and whose finalizers hold the deletion-protection marker
is reconciled without error, no container needs cloning, and the object
passed to the final `Update` still carries the marker. -/
theorem C3_counterexample :
    (DeploymentReconciler.Reconcile
        ⟨scriptedClient []
            (.ok (exampleWorkload ["acme/foo:1"] ["image-cloner/del-protection", "other/keep"])),
          exampleCloner "acme" [], "acme"⟩ 0 exampleRequest).err = none
      ∧ (finalUpdate (DeploymentReconciler.Reconcile
            ⟨scriptedClient []
                (.ok (exampleWorkload ["acme/foo:1"]
                  ["image-cloner/del-protection", "other/keep"])),
              exampleCloner "acme" [], "acme"⟩ 0 exampleRequest).trace).map
          (fun obj => obj.ObjectMeta.Finalizers)
        = some ["image-cloner/del-protection", "other/keep"]
      ∧ "image-cloner/del-protection"
          ∈ ["image-cloner/del-protection", "other/keep"] := by
  refine ⟨by decide, by decide, by decide⟩

/-- C3 (amended): for the Deployment and the DaemonSet reconciler, every
workload object `W` fetched on entry in which at least one container image
is not reported mirrored by the cloner, and every run that returns no
error, the finalizer list of the object passed to the final `Update` is
`W`'s list without the string `image-cloner/del-protection`, which it does
not contain. -/
theorem C3_marker_removed_when_a_container_is_cloned {σ : Type} (cl : Client σ)
    (cn : controller.ImageCloner σ) (p : String) (s s1 : σ) (req : NamespacedName)
    (W : Workload) (out : Outcome σ)
    (hout : out = DeploymentReconciler.Reconcile ⟨cl, cn, p⟩ s req
      ∨ out = DaemonsetReconciler.Reconcile ⟨cl, cn, p⟩ s req)
    (hget : cl.Get s req = (.ok W, s1))
    (hok : out.err = none)
    (hsome : ∃ c ∈ W.Spec.Template.Spec.Containers, cn.IsCloned c.Image = false) :
    ∃ obj, finalUpdate out.trace = some obj
      ∧ obj.ObjectMeta.Finalizers
          = W.ObjectMeta.Finalizers.filter (fun f => f != "image-cloner/del-protection")
      ∧ "image-cloner/del-protection" ∉ obj.ObjectMeta.Finalizers := by
  have hd := run_of_either cl cn p s s1 req W out hout hget
  subst hd
  obtain ⟨O, latest, -, h2, h3, -⟩ := run_success cl cn p s s1 req W hget hok
  have hs : (splice latest O).ObjectMeta.Finalizers = O.ObjectMeta.Finalizers := rfl
  have hall : W.Spec.Template.Spec.Containers.all (fun w => cn.IsCloned w.Image) = false := by
    obtain ⟨c, hc, hcl⟩ := hsome
    rw [Bool.eq_false_iff]
    intro hA
    rw [List.all_eq_true] at hA
    have := hA c hc
    simp [hcl] at this
  rw [hall] at h2
  simp only [Bool.false_eq_true, if_false] at h2
  refine ⟨splice latest O, h3, ?_, ?_⟩
  · rw [hs, h2, RemoveFinalizer_eq_filter]
    rfl
  · rw [hs, h2]
    exact not_mem_RemoveFinalizer _ _

/-- C3, witness: finalizers `image-cloner/del-protection`, `other/keep` and
one image `foo:1` that needs cloning persist as the finalizers
`other/keep`. -/
theorem C3_marker_removed_when_a_container_is_cloned_witness :
    (scriptedClient []
        (.ok (exampleWorkload ["foo:1"] ["image-cloner/del-protection", "other/keep"]))).Get 0
        exampleRequest
      = (.ok (exampleWorkload ["foo:1"] ["image-cloner/del-protection", "other/keep"]), 1)
    ∧ (DeploymentReconciler.Reconcile
        ⟨scriptedClient []
            (.ok (exampleWorkload ["foo:1"] ["image-cloner/del-protection", "other/keep"])),
          exampleCloner "acme" [], "acme"⟩ 0 exampleRequest).err = none
    ∧ (finalUpdate (DeploymentReconciler.Reconcile
          ⟨scriptedClient []
              (.ok (exampleWorkload ["foo:1"] ["image-cloner/del-protection", "other/keep"])),
            exampleCloner "acme" [], "acme"⟩ 0 exampleRequest).trace).map
        (fun obj => obj.ObjectMeta.Finalizers)
      = some ["other/keep"]
    ∧ ∃ obj, finalUpdate (DeploymentReconciler.Reconcile
          ⟨scriptedClient []
              (.ok (exampleWorkload ["foo:1"] ["image-cloner/del-protection", "other/keep"])),
            exampleCloner "acme" [], "acme"⟩ 0 exampleRequest).trace = some obj
      ∧ obj.ObjectMeta.Finalizers
          = (exampleWorkload ["foo:1"]
              ["image-cloner/del-protection", "other/keep"]).ObjectMeta.Finalizers.filter
              (fun f => f != "image-cloner/del-protection")
      ∧ "image-cloner/del-protection" ∉ obj.ObjectMeta.Finalizers :=
  ⟨rfl, by decide, by decide,
    C3_marker_removed_when_a_container_is_cloned
      (scriptedClient []
        (.ok (exampleWorkload ["foo:1"] ["image-cloner/del-protection", "other/keep"])))
      (exampleCloner "acme" []) "acme" 0 1 exampleRequest
      (exampleWorkload ["foo:1"] ["image-cloner/del-protection", "other/keep"]) _
      (Or.inl rfl) rfl (by decide)
      ⟨{ Name := "main", Image := "foo:1", Args := [] }, by decide, by decide⟩⟩

/-- C4 (the code at the failing input): when the entry `Get` fails, the
DaemonSet reconciler returns at once with a nil error, but the Deployment
reconciler goes on.  With a second `Get` that succeeds it fetches again and
issues an `Update` that empties the container list and the finalizer list;
with a `Get` that keeps failing it returns that error. -/
theorem C4_deployment_goes_on_after_failed_entry_fetch :
    (DaemonsetReconciler.Reconcile
        ⟨scriptedClient [.error { msg := "not found", conflict := false }]
            (.ok (exampleWorkload ["nginx:1.25"] ["other/keep"])),
          exampleCloner "acme" [], "acme"⟩ 0 exampleRequest).trace
      = [Call.get exampleRequest (.error { msg := "not found", conflict := false })]
    ∧ (DaemonsetReconciler.Reconcile
        ⟨scriptedClient [.error { msg := "not found", conflict := false }]
            (.ok (exampleWorkload ["nginx:1.25"] ["other/keep"])),
          exampleCloner "acme" [], "acme"⟩ 0 exampleRequest).err = none
    ∧ (DeploymentReconciler.Reconcile
        ⟨scriptedClient [.error { msg := "not found", conflict := false }]
            (.ok (exampleWorkload ["nginx:1.25"] ["other/keep"])),
          exampleCloner "acme" [], "acme"⟩ 0 exampleRequest).trace
      = [Call.get exampleRequest (.error { msg := "not found", conflict := false }),
         Call.get exampleRequest (.ok (exampleWorkload ["nginx:1.25"] ["other/keep"])),
         Call.update (exampleWorkload [] []) none]
    ∧ (DeploymentReconciler.Reconcile
        ⟨scriptedClient [] (.error { msg := "not found", conflict := false }),
          exampleCloner "acme" [], "acme"⟩ 0 exampleRequest).trace
      = [Call.get exampleRequest (.error { msg := "not found", conflict := false }),
         Call.get exampleRequest (.error { msg := "not found", conflict := false })]
    ∧ (DeploymentReconciler.Reconcile
        ⟨scriptedClient [] (.error { msg := "not found", conflict := false }),
          exampleCloner "acme" [], "acme"⟩ 0 exampleRequest).err
      = some { msg := "not found", conflict := false } := by
  refine ⟨by decide, by decide, by decide, by decide, by decide⟩

/-- C5: for the Deployment and the DaemonSet reconciler, every workload
object `W` whose entry fetch succeeds and every index `k` of a container
`c` of `W` that is not reported mirrored: when the cloner answers every
`Clone` of a container before `k` with success and the `Clone` of
container `k` with the error `e` (`st i` is the state of the outside world
when the loop reaches container `i`), `Reconcile` returns the empty result
with exactly `e`, issues no `Update`, and its calls are the entry `Get`,
then one `Clone` for each container before `k` that is not reported
mirrored, in index order, then the failed `Clone` of container `k`. -/
theorem C5_first_clone_failure_is_returned {σ : Type} (cl : Client σ)
    (cn : controller.ImageCloner σ) (p : String) (s s' : σ) (st : Nat → σ)
    (req : NamespacedName) (W : Workload) (out : Outcome σ) (k : Nat) (c : Container)
    (e : Err)
    (hout : out = DeploymentReconciler.Reconcile ⟨cl, cn, p⟩ s req
      ∨ out = DaemonsetReconciler.Reconcile ⟨cl, cn, p⟩ s req)
    (hget : cl.Get s req = (.ok W, st 0))
    (hk : W.Spec.Template.Spec.Containers[k]? = some c)
    (hck : cn.IsCloned c.Image = false)
    (hbefore : ∀ i w, i < k → W.Spec.Template.Spec.Containers[i]? = some w →
      if cn.IsCloned w.Image = true then st (i + 1) = st i
      else cn.Clone (st i) w.Image (p ++ "/" ++ ReplaceAll w.Image "/" "-")
            = (none, st (i + 1)))
    (hfail : cn.Clone (st k) c.Image (p ++ "/" ++ ReplaceAll c.Image "/" "-") = (some e, s')) :
    out.result = Result.empty
      ∧ out.err = some e
      ∧ out.state = s'
      ∧ updateCalls out.trace = []
      ∧ out.trace
        = Call.get req (.ok W) ::
            (((W.Spec.Template.Spec.Containers.take k).filter
                (fun w => !cn.IsCloned w.Image)).map
              (fun w => Call.clone w.Image (p ++ "/" ++ ReplaceAll w.Image "/" "-") none)
            ++ [Call.clone c.Image (p ++ "/" ++ ReplaceAll c.Image "/" "-") (some e)]) := by
  have hd := run_of_either cl cn p s (st 0) req W out hout hget
  subst hd
  obtain ⟨hsplit, hlen⟩ := split_at_index _ k c hk
  have hpre : ∀ j w, (W.Spec.Template.Spec.Containers.take k)[j]? = some w →
      if cn.IsCloned w.Image = true then st (j + 1) = st j
      else cn.Clone (st j) w.Image (p ++ "/" ++ ReplaceAll w.Image "/" "-")
            = (none, st (j + 1)) := by
    intro j w hw
    rw [List.getElem?_take] at hw
    by_cases hj : j < k
    · rw [if_pos hj] at hw
      exact hbefore j w hj hw
    · rw [if_neg hj] at hw
      exact absurd hw (by simp)
  obtain ⟨obj', hL⟩ := reconcileLoop_first_failure cn p c
    (W.Spec.Template.Spec.Containers.drop (k + 1)) e s' hck
    (W.Spec.Template.Spec.Containers.take k) 0 W st hpre (by rw [hlen]; exact hfail)
  rw [← hsplit] at hL
  rw [Daemonset_run_err cl cn p s (st 0) s' req W obj' e _ hget hL]
  refine ⟨rfl, rfl, rfl, ?_, rfl⟩
  simp only [updateCalls]
  exact updateCalls_clones_only _ _ _ _ _

/-- C5, witness: containers `acme/a:1`, `b:1`, `c:1`, `d:1` and a registry
copy that fails on `c:1` (index 2), for the Deployment and for the
DaemonSet reconciler: `b:1` is cloned, the clone of `c:1` fails and its
error is returned, `d:1` is never tried and nothing is updated. -/
theorem C5_first_clone_failure_is_returned_witness :
    (exampleCloner "acme" ["c:1"]).Clone 1 "b:1" "acme/b:1" = (none, 1)
    ∧ (exampleCloner "acme" ["c:1"]).Clone 1 "c:1" "acme/c:1"
        = (some { msg := "copy failed", conflict := false }, 1)
    ∧ ((DeploymentReconciler.Reconcile
        ⟨scriptedClient [] (.ok (exampleWorkload ["acme/a:1", "b:1", "c:1", "d:1"] [])),
          exampleCloner "acme" ["c:1"], "acme"⟩ 0 exampleRequest).err
        = some { msg := "copy failed", conflict := false }
      ∧ updateCalls (DeploymentReconciler.Reconcile
        ⟨scriptedClient [] (.ok (exampleWorkload ["acme/a:1", "b:1", "c:1", "d:1"] [])),
          exampleCloner "acme" ["c:1"], "acme"⟩ 0 exampleRequest).trace = []
      ∧ (DeploymentReconciler.Reconcile
        ⟨scriptedClient [] (.ok (exampleWorkload ["acme/a:1", "b:1", "c:1", "d:1"] [])),
          exampleCloner "acme" ["c:1"], "acme"⟩ 0 exampleRequest).trace
        = [Call.get exampleRequest
              (.ok (exampleWorkload ["acme/a:1", "b:1", "c:1", "d:1"] [])),
           Call.clone "b:1" "acme/b:1" none,
           Call.clone "c:1" "acme/c:1" (some { msg := "copy failed", conflict := false })])
    ∧ ((DaemonsetReconciler.Reconcile
        ⟨scriptedClient [] (.ok (exampleWorkload ["acme/a:1", "b:1", "c:1", "d:1"] [])),
          exampleCloner "acme" ["c:1"], "acme"⟩ 0 exampleRequest).err
        = some { msg := "copy failed", conflict := false }
      ∧ updateCalls (DaemonsetReconciler.Reconcile
        ⟨scriptedClient [] (.ok (exampleWorkload ["acme/a:1", "b:1", "c:1", "d:1"] [])),
          exampleCloner "acme" ["c:1"], "acme"⟩ 0 exampleRequest).trace = []
      ∧ (DaemonsetReconciler.Reconcile
        ⟨scriptedClient [] (.ok (exampleWorkload ["acme/a:1", "b:1", "c:1", "d:1"] [])),
          exampleCloner "acme" ["c:1"], "acme"⟩ 0 exampleRequest).trace
        = [Call.get exampleRequest
              (.ok (exampleWorkload ["acme/a:1", "b:1", "c:1", "d:1"] [])),
           Call.clone "b:1" "acme/b:1" none,
           Call.clone "c:1" "acme/c:1" (some { msg := "copy failed", conflict := false })]) := by
  have hbefore : ∀ i w, i < 2 →
      (exampleWorkload ["acme/a:1", "b:1", "c:1", "d:1"] []).Spec.Template.Spec.Containers[i]?
        = some w →
      if (exampleCloner "acme" ["c:1"]).IsCloned w.Image = true then
        (fun _ : Nat => (1 : Nat)) (i + 1) = (fun _ : Nat => (1 : Nat)) i
      else (exampleCloner "acme" ["c:1"]).Clone ((fun _ : Nat => (1 : Nat)) i) w.Image
            ("acme" ++ "/" ++ ReplaceAll w.Image "/" "-")
          = (none, (fun _ : Nat => (1 : Nat)) (i + 1)) := by
    intro i w hi hw
    interval_cases i
    · have hw' : w = { Name := "main", Image := "acme/a:1", Args := [] } := by
        simpa [exampleWorkload, Workload.zero] using hw.symm
      subst hw'
      decide
    · have hw' : w = { Name := "main", Image := "b:1", Args := [] } := by
        simpa [exampleWorkload, Workload.zero] using hw.symm
      subst hw'
      decide
  have hD := C5_first_clone_failure_is_returned
    (scriptedClient [] (.ok (exampleWorkload ["acme/a:1", "b:1", "c:1", "d:1"] [])))
    (exampleCloner "acme" ["c:1"]) "acme" 0 1 (fun _ => 1) exampleRequest
    (exampleWorkload ["acme/a:1", "b:1", "c:1", "d:1"] []) _ 2
    { Name := "main", Image := "c:1", Args := [] }
    { msg := "copy failed", conflict := false } (Or.inl rfl) rfl (by decide) (by decide)
    hbefore (by decide)
  have hS := C5_first_clone_failure_is_returned
    (scriptedClient [] (.ok (exampleWorkload ["acme/a:1", "b:1", "c:1", "d:1"] [])))
    (exampleCloner "acme" ["c:1"]) "acme" 0 1 (fun _ => 1) exampleRequest
    (exampleWorkload ["acme/a:1", "b:1", "c:1", "d:1"] []) _ 2
    { Name := "main", Image := "c:1", Args := [] }
    { msg := "copy failed", conflict := false } (Or.inr rfl) rfl (by decide) (by decide)
    hbefore (by decide)
  exact ⟨by decide, by decide, ⟨hD.2.1, hD.2.2.2.1, hD.2.2.2.2⟩,
    ⟨hS.2.1, hS.2.2.2.1, hS.2.2.2.2⟩⟩

/-- C6 (as stated, refuted): with mirror prefix `acme`, the entry fetch
returns a Deployment with the mirrored image `acme/foo:1`; before the
re-fetch the object is changed in the cluster to the image `acme/foo:2` and
the finalizer `other/keep`.  No `Clone` is issued, and the `Update` writes
the image `acme/foo:1` and no finalizer: the object written differs from
the object the re-fetch returned. -/
theorem C6_counterexample :
    cloneCalls (DeploymentReconciler.Reconcile
        ⟨scriptedClient [.ok (exampleWorkload ["acme/foo:1"] [])]
            (.ok (exampleWorkload ["acme/foo:2"] ["other/keep"])),
          exampleCloner "acme" [], "acme"⟩ 0 exampleRequest).trace = []
      ∧ writesAfterFetch none (DeploymentReconciler.Reconcile
          ⟨scriptedClient [.ok (exampleWorkload ["acme/foo:1"] [])]
              (.ok (exampleWorkload ["acme/foo:2"] ["other/keep"])),
            exampleCloner "acme" [], "acme"⟩ 0 exampleRequest).trace
        = [(some (exampleWorkload ["acme/foo:2"] ["other/keep"]),
            exampleWorkload ["acme/foo:1"] [])]
      ∧ exampleWorkload ["acme/foo:1"] [] ≠ exampleWorkload ["acme/foo:2"] ["other/keep"] := by
  refine ⟨by decide, by decide, by decide⟩

/-- C6 (amended): for the Deployment and the DaemonSet reconciler with the
default cloner set up with the mirror prefix `p`, and every workload object
`W` fetched on entry in which every container image begins with `p`:
the run issues no `Clone` call, and every `Update` it issues comes right
after a successful re-fetch and writes the re-fetched object with its
container list and finalizer list replaced by those of `W`; that write
leaves the re-fetched object as it is exactly when its container list and
finalizer list are those of `W`. -/
theorem C6_mirrored_object_no_clone_and_spliced_write {σ : Type} (cl : Client σ)
    (ic : ImageCloner σ) (password p : String) (s s1 : σ) (req : NamespacedName)
    (W : Workload) (out : Outcome σ)
    (hout : out = DeploymentReconciler.Reconcile
          ⟨cl, ImageCloner.toInterface (ImageCloner.SetupForDocker ic p password), p⟩ s req
      ∨ out = DaemonsetReconciler.Reconcile
          ⟨cl, ImageCloner.toInterface (ImageCloner.SetupForDocker ic p password), p⟩ s req)
    (hget : cl.Get s req = (.ok W, s1))
    (hall : ∀ c ∈ W.Spec.Template.Spec.Containers, ∃ t : String, c.Image = p ++ t) :
    cloneCalls out.trace = []
      ∧ ∀ x ∈ writesAfterFetch none out.trace,
          ∃ latest, x.1 = some latest
            ∧ x.2 = { latest with
                ObjectMeta.Finalizers := W.ObjectMeta.Finalizers
                Spec.Template.Spec.Containers := W.Spec.Template.Spec.Containers }
            ∧ (x.2 = latest
                ↔ latest.Spec.Template.Spec.Containers = W.Spec.Template.Spec.Containers
                  ∧ latest.ObjectMeta.Finalizers = W.ObjectMeta.Finalizers) := by
  have hd := run_of_either cl _ p s s1 req W out hout hget
  subst hd
  have hcl : ∀ c ∈ W.Spec.Template.Spec.Containers,
      (ImageCloner.toInterface (ImageCloner.SetupForDocker ic p password)).IsCloned c.Image
        = true := by
    intro c hc
    exact (HasPrefix_iff _ _).2 (hall c hc)
  have hL := reconcileLoop_all_cloned
    (ImageCloner.toInterface (ImageCloner.SetupForDocker ic p password)) p
    W.Spec.Template.Spec.Containers 0 W s1 hcl
  rw [Daemonset_run_ok cl _ p s s1 s1 req W W [] hget hL]
  simp only [List.nil_append, cloneCalls, writesAfterFetch]
  refine ⟨cloneCalls_retry cl req W _ _ _, ?_⟩
  intro x hx
  obtain ⟨latest, rfl⟩ := writesAfterFetch_retry cl req W _ _ _ _ x hx
  exact ⟨latest, rfl, rfl, splice_eq_self_iff latest W⟩

/-- C6, witness: the amended claim at the run of the counterexample. -/
theorem C6_mirrored_object_no_clone_and_spliced_write_witness :
    (scriptedClient [.ok (exampleWorkload ["acme/foo:1"] [])]
        (.ok (exampleWorkload ["acme/foo:2"] ["other/keep"]))).Get 0 exampleRequest
      = (.ok (exampleWorkload ["acme/foo:1"] []), 1)
    ∧ (∀ c ∈ (exampleWorkload ["acme/foo:1"] []).Spec.Template.Spec.Containers,
        ∃ t : String, c.Image = "acme" ++ t)
    ∧ cloneCalls (DaemonsetReconciler.Reconcile
        ⟨scriptedClient [.ok (exampleWorkload ["acme/foo:1"] [])]
            (.ok (exampleWorkload ["acme/foo:2"] ["other/keep"])),
          exampleCloner "acme" [], "acme"⟩ 0 exampleRequest).trace = []
    ∧ ∀ x ∈ writesAfterFetch none (DaemonsetReconciler.Reconcile
          ⟨scriptedClient [.ok (exampleWorkload ["acme/foo:1"] [])]
              (.ok (exampleWorkload ["acme/foo:2"] ["other/keep"])),
            exampleCloner "acme" [], "acme"⟩ 0 exampleRequest).trace,
        ∃ latest, x.1 = some latest
          ∧ x.2 = { latest with
              ObjectMeta.Finalizers := (exampleWorkload ["acme/foo:1"] []).ObjectMeta.Finalizers
              Spec.Template.Spec.Containers :=
                (exampleWorkload ["acme/foo:1"] []).Spec.Template.Spec.Containers }
          ∧ (x.2 = latest
              ↔ latest.Spec.Template.Spec.Containers
                  = (exampleWorkload ["acme/foo:1"] []).Spec.Template.Spec.Containers
                ∧ latest.ObjectMeta.Finalizers
                  = (exampleWorkload ["acme/foo:1"] []).ObjectMeta.Finalizers) :=
  ⟨rfl,
    fun c hc => (HasPrefix_iff c.Image "acme").1
      (by
        simp only [exampleWorkload, Workload.zero, List.map, List.mem_singleton] at hc
        subst hc
        decide),
    C6_mirrored_object_no_clone_and_spliced_write
      (scriptedClient [.ok (exampleWorkload ["acme/foo:1"] [])]
        (.ok (exampleWorkload ["acme/foo:2"] ["other/keep"])))
      { copy := fun _ s originalImage _ =>
          if originalImage ∈ ([] : List String) then
            (some { msg := "copy failed", conflict := false }, s)
          else (none, s),
        cfg := { Username := "", Password := "" } }
      "password" "acme" 0 1 exampleRequest (exampleWorkload ["acme/foo:1"] []) _
      (Or.inr rfl) rfl
      (fun c hc => (HasPrefix_iff c.Image "acme").1
        (by
          simp only [exampleWorkload, Workload.zero, List.map, List.mem_singleton] at hc
          subst hc
          decide))⟩

/-- C7 (as stated, refuted): with user name `acme` the default cloner
reports `acmecorp/app:1` as cloned, though it does not begin with `acme/`. -/
theorem C7_counterexample :
    ImageCloner.IsCloned (ImageCloner.SetupForDocker exampleImageCloner "acme" "password")
        "acmecorp/app:1" = true
      ∧ ¬ ∃ t : String, "acmecorp/app:1" = "acme" ++ "/" ++ t := by
  refine ⟨by decide, ?_⟩
  intro h
  exact absurd ((HasPrefix_iff _ _).2 h) (by decide)

/-- C7 (amended): for every mirror prefix `p` (the user name given to
`SetupForDocker`) and every image reference `image`, `IsCloned image` of
the default cloner is true if and only if `image` begins with `p`; no `/`
after the prefix is asked for. -/
theorem C7_IsCloned_iff_begins_with_username {σ : Type} (ic : ImageCloner σ)
    (p password image : String) :
    ImageCloner.IsCloned (ImageCloner.SetupForDocker ic p password) image = true
      ↔ ∃ t : String, image = p ++ t :=
  HasPrefix_iff image p

/-- C8 (as stated, refuted): an update of a Deployment that changes only
`Replicas` from 1 to 2, a field outside the pod template, is accepted
whatever `reflect.DeepEqual` makes of the rest of the two specs, though the
pod templates of the old and the new object are equal. -/
theorem C8_counterexample :
    (∀ DeepEqual : WorkloadSpec → WorkloadSpec → Bool,
      (∀ a b, DeepEqual a b = true → a = b) →
      (IgnoreUnchangedDeploymentSpec DeepEqual).Update
          { ObjectOld := .deployment
              { exampleWorkload ["nginx:1.25"] [] with Spec.Replicas := some 1 },
            ObjectNew := .deployment
              { exampleWorkload ["nginx:1.25"] [] with Spec.Replicas := some 2 } }
        = some true)
    ∧ ({ exampleWorkload ["nginx:1.25"] [] with Spec.Replicas := some 1 } : Workload).Spec.Template
      = ({ exampleWorkload ["nginx:1.25"] [] with Spec.Replicas := some 2 } :
          Workload).Spec.Template := by
  refine ⟨?_, by decide⟩
  intro DeepEqual hsound
  have hne : DeepEqual
      ({ exampleWorkload ["nginx:1.25"] [] with Spec.Replicas := some 1 } : Workload).Spec
      ({ exampleWorkload ["nginx:1.25"] [] with Spec.Replicas := some 2 } : Workload).Spec
      = false := by
    rw [Bool.eq_false_iff]
    intro h
    exact absurd (hsound _ _ h) (by decide)
  simp [IgnoreUnchangedDeploymentSpec, Funcs.Update, hne]

/-- C8 (amended): for every update event on a Deployment (and likewise a
DaemonSet), the unchanged-spec predicate accepts the event if and only if
`reflect.DeepEqual` reports the whole `Spec` of the old object, not the pod
template alone, as different from that of the new object; so every update
that changes a field of the `Spec`, in the pod template or outside it (such
as `Replicas`), is accepted, and an update is rejected only when no field
of the `Spec` changed; every create, delete and generic event it accepts. -/
theorem C8_unchanged_spec_compares_whole_spec
    (DeepEqual : WorkloadSpec → WorkloadSpec → Bool)
    (hsound : ∀ a b, DeepEqual a b = true → a = b)
    (old new : Workload) (o : Object) :
    (IgnoreUnchangedDeploymentSpec DeepEqual).Update
        { ObjectOld := .deployment old, ObjectNew := .deployment new }
      = some (!DeepEqual old.Spec new.Spec)
    ∧ (IgnoreUnchangedDaemonsetSpec DeepEqual).Update
        { ObjectOld := .daemonSet old, ObjectNew := .daemonSet new }
      = some (!DeepEqual old.Spec new.Spec)
    ∧ (old.Spec ≠ new.Spec →
        (IgnoreUnchangedDeploymentSpec DeepEqual).Update
            { ObjectOld := .deployment old, ObjectNew := .deployment new } = some true
        ∧ (IgnoreUnchangedDaemonsetSpec DeepEqual).Update
            { ObjectOld := .daemonSet old, ObjectNew := .daemonSet new } = some true)
    ∧ ((IgnoreUnchangedDeploymentSpec DeepEqual).Update
            { ObjectOld := .deployment old, ObjectNew := .deployment new } = some false
        ∨ (IgnoreUnchangedDaemonsetSpec DeepEqual).Update
            { ObjectOld := .daemonSet old, ObjectNew := .daemonSet new } = some false →
        old.Spec = new.Spec)
    ∧ (IgnoreUnchangedDeploymentSpec DeepEqual).Create o = some true
    ∧ (IgnoreUnchangedDeploymentSpec DeepEqual).Delete o = some true
    ∧ (IgnoreUnchangedDeploymentSpec DeepEqual).Generic o = some true
    ∧ (IgnoreUnchangedDaemonsetSpec DeepEqual).Create o = some true
    ∧ (IgnoreUnchangedDaemonsetSpec DeepEqual).Delete o = some true
    ∧ (IgnoreUnchangedDaemonsetSpec DeepEqual).Generic o = some true := by
  have hD : (IgnoreUnchangedDeploymentSpec DeepEqual).Update
        { ObjectOld := .deployment old, ObjectNew := .deployment new }
      = some (!DeepEqual old.Spec new.Spec) := rfl
  have hS : (IgnoreUnchangedDaemonsetSpec DeepEqual).Update
        { ObjectOld := .daemonSet old, ObjectNew := .daemonSet new }
      = some (!DeepEqual old.Spec new.Spec) := rfl
  refine ⟨hD, hS, ?_, ?_, rfl, rfl, rfl, rfl, rfl, rfl⟩
  · intro hne
    have hf : DeepEqual old.Spec new.Spec = false := by
      rw [Bool.eq_false_iff]
      exact fun h => hne (hsound _ _ h)
    rw [hD, hS, hf]
    exact ⟨rfl, rfl⟩
  · intro h
    rw [hD, hS] at h
    have ht : DeepEqual old.Spec new.Spec = true := by
      rcases h with h | h <;> simpa using h
    exact hsound _ _ ht

/-- C8, witness: with a `DeepEqual` that tells apart exactly the specs that
differ in the model, an update of a Deployment that changes only `Replicas`
is accepted and an update that changes only an annotation is rejected. -/
theorem C8_unchanged_spec_compares_whole_spec_witness :
    (∀ a b : WorkloadSpec, (fun x y : WorkloadSpec => decide (x = y)) a b = true → a = b)
    ∧ (IgnoreUnchangedDeploymentSpec (fun x y => decide (x = y))).Update
        { ObjectOld := .deployment
            { exampleWorkload ["nginx:1.25"] [] with Spec.Replicas := some 1 },
          ObjectNew := .deployment
            { exampleWorkload ["nginx:1.25"] [] with Spec.Replicas := some 2 } }
      = some true
    ∧ (IgnoreUnchangedDaemonsetSpec (fun x y => decide (x = y))).Update
        { ObjectOld := .daemonSet (exampleWorkload ["nginx:1.25"] []),
          ObjectNew := .daemonSet
            { exampleWorkload ["nginx:1.25"] [] with
              ObjectMeta.Annotations := [("touched", "yes")] } }
      = some false :=
  ⟨fun a b h => by simpa using h,
    ((C8_unchanged_spec_compares_whole_spec (fun x y => decide (x = y))
      (fun a b h => by simpa using h)
      { exampleWorkload ["nginx:1.25"] [] with Spec.Replicas := some 1 }
      { exampleWorkload ["nginx:1.25"] [] with Spec.Replicas := some 2 }
      (.other "default")).2.2.1 (by decide)).1,
    by
      rw [(C8_unchanged_spec_compares_whole_spec (fun x y => decide (x = y))
        (fun a b h => by simpa using h)
        (exampleWorkload ["nginx:1.25"] [])
        { exampleWorkload ["nginx:1.25"] [] with
          ObjectMeta.Annotations := [("touched", "yes")] }
        (.other "default")).2.1]
      decide⟩

/-- C9 (the code at the failing input): on a Deployment, and on a
DaemonSet, whose pod template has an empty container list the
already-mirrored predicate indexes `Containers[0]` out of range and
panics; on a non-empty list it rejects exactly when the first image begins
with the prefix, and an object of another kind it rejects. -/
theorem C9_already_mirrored_predicate_panics_on_no_container :
    IgnoreDeploymentClonedImages "acme" (.deployment (exampleWorkload [] [])) = none
    ∧ IgnoreDaemonsetClonedImages "acme" (.daemonSet (exampleWorkload [] [])) = none
    ∧ IgnoreDeploymentClonedImages "acme"
        (.deployment (exampleWorkload ["acme/foo:1", "bar:1"] [])) = some false
    ∧ IgnoreDeploymentClonedImages "acme"
        (.deployment (exampleWorkload ["bar:1", "acme/foo:1"] [])) = some true
    ∧ IgnoreDaemonsetClonedImages "acme"
        (.daemonSet (exampleWorkload ["acme/foo:1", "bar:1"] [])) = some false
    ∧ IgnoreDaemonsetClonedImages "acme"
        (.daemonSet (exampleWorkload ["bar:1", "acme/foo:1"] [])) = some true
    ∧ IgnoreDeploymentClonedImages "acme"
        (.daemonSet (exampleWorkload ["bar:1"] [])) = some false
    ∧ IgnoreDaemonsetClonedImages "acme"
        (.deployment (exampleWorkload ["bar:1"] [])) = some false := by
  refine ⟨by decide, by decide, by decide, by decide, by decide, by decide, by decide,
    by decide⟩

/-- C10 (as stated, refuted): the secret read succeeds and the secret has
the data field `username` but no data field `password`;
`RetrieveDockerSecrets` returns nil and sets `Password` to the empty
string. -/
theorem C10_counterexample :
    ({ Data := [("username", "acme")] } : Secret).Data.lookup "password" = none
    ∧ ((exampleConfig (.ok { Data := [("username", "acme")] })).RetrieveDockerSecrets 0
        "default" "image-cloner-creds").1 = none
    ∧ ((exampleConfig (.ok { Data := [("username", "acme")] })).RetrieveDockerSecrets 0
        "default" "image-cloner-creds").2.1.DockerConfig
      = { Username := "acme", Password := "" } := by
  refine ⟨by decide, by decide, by decide⟩

/-- C10 (amended): `RetrieveDockerSecrets` returns an error exactly when
the read of the named secret fails, and the error then is the read error
behind the text `failed to fetch docker secret: `; when the read succeeds
it returns nil and sets `Username` and `Password` to the contents of the
data fields `username` and `password`, the empty string for a field the
secret lacks. -/
theorem C10_error_only_when_read_fails {σ : Type} (c : Config σ) (s s1 : σ)
    (nameSpace secretName : String) (res : Except Err Secret)
    (hread : c.apiReader s { Namespace := nameSpace, Name := secretName } = (res, s1)) :
    ((c.RetrieveDockerSecrets s nameSpace secretName).1 = none ↔ ∃ secret, res = .ok secret)
    ∧ (∀ err, res = .error err →
        (c.RetrieveDockerSecrets s nameSpace secretName).1
          = some { msg := "failed to fetch docker secret: " ++ err.msg, conflict := false })
    ∧ (∀ secret, res = .ok secret →
        (c.RetrieveDockerSecrets s nameSpace secretName).2.1.DockerConfig
          = { Username := (secret.Data.lookup "username").getD "",
              Password := (secret.Data.lookup "password").getD "" }) := by
  cases res with
  | error err => simp [Config.RetrieveDockerSecrets, hread]
  | ok secret => simp [Config.RetrieveDockerSecrets, hread, Secret.field]

/-- C10, witness: a secret with both fields, and a read that fails. -/
theorem C10_error_only_when_read_fails_witness :
    (exampleConfig (.ok { Data := [("username", "acme"), ("password", "hunter2")] })).apiReader
        0 { Namespace := "default", Name := "image-cloner-creds" }
      = (.ok { Data := [("username", "acme"), ("password", "hunter2")] }, 1)
    ∧ ((exampleConfig
          (.ok { Data := [("username", "acme"), ("password", "hunter2")] })).RetrieveDockerSecrets
        0 "default" "image-cloner-creds").2.1.DockerConfig
      = { Username := "acme", Password := "hunter2" }
    ∧ ((exampleConfig (.error { msg := "forbidden", conflict := false })).RetrieveDockerSecrets
        0 "default" "image-cloner-creds").1
      = some { msg := "failed to fetch docker secret: forbidden", conflict := false } :=
  ⟨rfl,
    (C10_error_only_when_read_fails
      (exampleConfig (.ok { Data := [("username", "acme"), ("password", "hunter2")] }))
      0 1 "default" "image-cloner-creds" _ rfl).2.2 _ rfl,
    (C10_error_only_when_read_fails
      (exampleConfig (.error { msg := "forbidden", conflict := false }))
      0 1 "default" "image-cloner-creds" _ rfl).2.1 _ rfl⟩

end K8sImageCloner
